import Mathlib

/-!
# Verification of the cota-bus transit data server

A shallow embedding, in Lean 4, of the data model and the ingestion
pipelines of the `joeshaw/cota-bus` Go server, together with theorems
settling the specification's claims against this embedding.

The repository carries two coexisting generations of the server:

* the single-file implementation (`main.go`: `parseGTFS`,
  `updateVehiclePositions`, `updateTripUpdates`, `cleanCOTADestination`,
  plus `loadGTFS`'s local-copy fallback), embedded below under names
  prefixed `p3`;
* the package implementation (`internal/models`, `internal/store`,
  `internal/updater` with `VehicleUpdater` / `TripUpdater`, and the
  `internal` GTFS `Loader`), embedded under names prefixed `m`, `store`,
  `vu`, `tu` and `loader`.

Modelling conventions:

* Go maps become association lists (`List (String × α)`); insertion is
  `mapUpsert` (overwrite-on-duplicate, like a Go map assignment) and
  iteration order is the list order (Go's map iteration order is
  unspecified; the list order stands in for one concrete order).
* `time.Time` values become epoch seconds (`Int`); an optional timestamp
  is `Option Int` (`none` plays the role of Go's zero `time.Time`).
* Floating-point payload fields (latitudes, longitudes, bearings, speeds)
  are carried as `Int`: no pipeline under verification performs any
  arithmetic on them, they are copied through unchanged.
* Network and file I/O outcomes are passed in as `Except`/`Option`
  parameters; a function that Go runs for its side effect on the server
  state becomes a function from the state (plus the I/O outcome) to the
  new state.
-/

set_option autoImplicit false

namespace CotaBus

universe u v

variable {κ : Type u} {α : Type v} [DecidableEq κ]

/-! ## Go-map helpers over association lists -/

/-- Lookup in a Go map modelled as an association list (first binding wins;
bindings are unique when built with `mapUpsert`). -/
def mapLookup : List (κ × α) → κ → Option α
  | [], _ => none
  | (k', v) :: rest, k => if k' = k then some v else mapLookup rest k

/-- Go map assignment `m[k] = v`: overwrite the existing binding, else append. -/
def mapUpsert : List (κ × α) → κ → α → List (κ × α)
  | [], k, v => [(k, v)]
  | (k', v') :: rest, k, v =>
      if k' = k then (k, v) :: rest else (k', v') :: mapUpsert rest k v

/-- Go's `m[k] = append(m[k], v)` on a map of slices. -/
def mapAppendAt : List (κ × List α) → κ → α → List (κ × List α)
  | [], k, v => [(k, [v])]
  | (k', l) :: rest, k, v =>
      if k' = k then (k', l ++ [v]) :: rest else (k', l) :: mapAppendAt rest k v

/-- All values of a map of slices, flattened. -/
def mapVals (m : List (κ × List α)) : List α :=
  m.flatMap Prod.snd

/-- Insert into a list if not already present (models both the
`found` scan-then-append idiom used for Go string-slice sets and the
insertion-ordered view of a Go `map[string]bool` set). -/
def listInsertIfAbsent {β : Type v} [DecidableEq β] (l : List β) (s : β) : List β :=
  if s ∈ l then l else l ++ [s]

/-- `strings.Index(s, token)` together with the two slices around the
first occurrence: `none` when the token does not occur in `s`, else the
characters before the occurrence and the characters after it.
(Character-level rather than byte-level; identical for ASCII data.) -/
def charsSplitAtToken (token : List Char) : List Char → Option (List Char × List Char)
  | [] => none
  | c :: rest =>
    if token.isPrefixOf (c :: rest) then some ([], (c :: rest).drop token.length)
    else
      match charsSplitAtToken token rest with
      | some (pre, suf) => some (c :: pre, suf)
      | none => none

/-- `strings.TrimSpace` (ASCII whitespace). -/
def goTrimSpace (s : String) : String :=
  String.mk (((s.data.dropWhile Char.isWhitespace).reverse.dropWhile
    Char.isWhitespace).reverse)


end CotaBus

namespace CotaBus

/-! ## GTFS-realtime feed messages

The protobuf schema shared by both generations (`FeedMessage` with
entities carrying either a `VehiclePosition` or a `TripUpdate`).
Optional protobuf fields become `Option`; `GetX()` accessors turn into
`Option.getD` with the protobuf default. -/

structure TripDescriptor where
  tripId : Option String
  routeId : Option String
  directionId : Option Int
deriving Repr, DecidableEq

structure FeedPosition where
  latitude : Int
  longitude : Int
  bearing : Option Int
  speed : Option Int
deriving Repr, DecidableEq

structure VehicleDescriptor where
  id : Option String
  label : Option String
deriving Repr, DecidableEq

inductive VehicleStopStatus where
  | incomingAt | stoppedAt | inTransitTo
deriving Repr, DecidableEq

/-- `VehiclePosition_VehicleStopStatus.String()` as used by the single-file
reconciler, and the switch in `VehicleUpdater.processFeed`. -/
def VehicleStopStatus.asString : VehicleStopStatus → String
  | .incomingAt => "INCOMING_AT"
  | .stoppedAt => "STOPPED_AT"
  | .inTransitTo => "IN_TRANSIT_TO"

inductive CongestionLevel where
  | unknownCongestionLevel | runningSmoothly | stopAndGo | congestion | severeCongestion
deriving Repr, DecidableEq

def CongestionLevel.asString : CongestionLevel → String
  | .unknownCongestionLevel => "UNKNOWN_CONGESTION_LEVEL"
  | .runningSmoothly => "RUNNING_SMOOTHLY"
  | .stopAndGo => "STOP_AND_GO"
  | .congestion => "CONGESTION"
  | .severeCongestion => "SEVERE_CONGESTION"

inductive OccupancyStatus where
  | empty | manySeatsAvailable | fewSeatsAvailable | standingRoomOnly
  | crushedStandingRoomOnly | full | notAcceptingPassengers
deriving Repr, DecidableEq

def OccupancyStatus.asString : OccupancyStatus → String
  | .empty => "EMPTY"
  | .manySeatsAvailable => "MANY_SEATS_AVAILABLE"
  | .fewSeatsAvailable => "FEW_SEATS_AVAILABLE"
  | .standingRoomOnly => "STANDING_ROOM_ONLY"
  | .crushedStandingRoomOnly => "CRUSHED_STANDING_ROOM_ONLY"
  | .full => "FULL"
  | .notAcceptingPassengers => "NOT_ACCEPTING_PASSENGERS"

structure VehiclePosition where
  trip : Option TripDescriptor
  vehicle : Option VehicleDescriptor
  position : Option FeedPosition
  currentStopSequence : Option Int
  stopId : Option String
  currentStatus : Option VehicleStopStatus
  congestionLevel : Option CongestionLevel
  occupancyStatus : Option OccupancyStatus
deriving Repr, DecidableEq

structure StopTimeEvent where
  time : Option Int
deriving Repr, DecidableEq

inductive ScheduleRelationship where
  | scheduled | skipped | noData | unscheduled
deriving Repr, DecidableEq

structure StopTimeUpdate where
  stopSequence : Option Int
  stopId : Option String
  arrival : Option StopTimeEvent
  departure : Option StopTimeEvent
  scheduleRelationship : Option ScheduleRelationship
deriving Repr, DecidableEq

structure TripUpdateMsg where
  trip : Option TripDescriptor
  stopTimeUpdate : List StopTimeUpdate
deriving Repr, DecidableEq

structure FeedEntity where
  vehicle : Option VehiclePosition
  tripUpdate : Option TripUpdateMsg
deriving Repr, DecidableEq

structure FeedHeader where
  timestamp : Option Int
deriving Repr, DecidableEq

structure FeedMessage where
  header : FeedHeader
  entity : List FeedEntity
deriving Repr, DecidableEq

end CotaBus

namespace CotaBus

/-! ## Single-file implementation (`main.go`): domain records

Records mirror the JSON structs of the single-file server; the nested
`Attributes` / `Relationships` wrappers are flattened into one record
(`tripRel` / `stopRel` stand for `Relationships.Trip.Data.ID` /
`Relationships.Stop.Data.ID`, `none` meaning the relationship is absent). -/

/-- Protobuf getter semantics: `GetId()` on an optional field. -/
def tdGetTripId (td : TripDescriptor) : String := td.tripId.getD ""

def tdGetRouteId (td : TripDescriptor) : String := td.routeId.getD ""

def tdGetDirectionId (td : TripDescriptor) : Int := td.directionId.getD 0

def fhGetTimestamp (h : FeedHeader) : Int := h.timestamp.getD 0

def vpGetStopId (vp : VehiclePosition) : String := vp.stopId.getD ""

def vpGetCurrentStopSequence (vp : VehiclePosition) : Int :=
  vp.currentStopSequence.getD 0

def stuGetStopSequence (stu : StopTimeUpdate) : Int := stu.stopSequence.getD 0

structure P3Route where
  id : String
  color : String := ""
  description : String := ""
  longName : String := ""
  shortName : String := ""
  textColor : String := ""
  type : Int := 3
  directionDestinations : List String := []
deriving Repr, DecidableEq

structure P3Stop where
  id : String
  description : String := ""
  latitude : Int := 0
  longitude : Int := 0
  name : String := ""
  platformCode : String := ""
  platformName : String := ""
  wheelchairBoarding : Int := 0
deriving Repr, DecidableEq

structure P3Vehicle where
  id : String
  bearing : Int := 0
  currentStatus : String := ""
  currentStopSequence : Int := 0
  directionID : Int := 0
  label : String := ""
  latitude : Int := 0
  longitude : Int := 0
  speed : Int := 0
  updatedAt : Int := 0
  routeID : String := ""
  headsign : String := ""
  tripRel : Option String := none
  stopRel : Option String := none
deriving Repr, DecidableEq

structure P3Prediction where
  id : String
  arrivalTime : Option Int := none
  departureTime : Option Int := none
  directionID : Int := 0
  schedule : String := ""
  status : String := ""
  stopSequence : Int := 0
  stopRel : String := ""
deriving Repr, DecidableEq

structure P3Trip where
  id : String
  routeID : String := ""
  serviceID : String := ""
  shapeID : String := ""
  headsign : String := ""
  direction : Int := 0
deriving Repr, DecidableEq

structure P3StopTime where
  tripID : String
  stopID : String
  stopSequence : Int := 0
  arrivalTime : String := ""
  departureTime : String := ""
deriving Repr, DecidableEq

structure P3ShapePoint where
  lat : Int := 0
  lon : Int := 0
  sequence : Int := 0
deriving Repr, DecidableEq

/-- A shape keeps its sequence-sorted points; the polyline string the Go
code derives from them (the excluded, fixed polyline encoder) is not
modelled. -/
structure P3Shape where
  id : String
  points : List P3ShapePoint := []
deriving Repr, DecidableEq

structure P3GTFSData where
  routes : List (String × P3Route) := []
  stops : List (String × P3Stop) := []
  shapes : List (String × P3Shape) := []
  trips : List (String × P3Trip) := []
  stopTimes : List (String × List P3StopTime) := []
  tripStops : List (String × List P3StopTime) := []
  routeStops : List (String × List String) := []
deriving Repr, DecidableEq

structure P3RealtimeData where
  vehicles : List (String × P3Vehicle) := []
  predictions : List (String × List P3Prediction) := []
  tripPredictions : List (String × List P3Prediction) := []
  lastUpdate : Int := 0
deriving Repr, DecidableEq

structure P3Server where
  gtfs : P3GTFSData := {}
  realtime : P3RealtimeData := {}
deriving Repr, DecidableEq

/-- `realtimeUpdateInterval = 30 * time.Second`, in seconds. -/
def realtimeUpdateInterval : Int := 30

/-! ## Single-file implementation: vehicle-position reconciliation
(`updateVehiclePositions`) -/

/-- The stop-relationship block of `updateVehiclePositions`: a non-empty
feed stop ID wins; otherwise, with a trip descriptor and a
current-stop-sequence present, a 1-indexed lookup into the trip's
`tripStops` list under the bound check `0 < seq ∧ seq ≤ len`; in every
other case the vehicle's stop relationship stays unset (`none`). -/
def p3StopRelationship (gtfs : P3GTFSData) (vp : VehiclePosition) : Option String :=
  let stopID := vpGetStopId vp
  if stopID ≠ "" then some stopID
  else match vp.trip, vp.currentStopSequence with
    | some td, some _ =>
      let tripID := tdGetTripId td
      let stopSequence := vpGetCurrentStopSequence vp
      match mapLookup gtfs.tripStops tripID with
      | some stopTimes =>
        if 0 < stopSequence ∧ stopSequence ≤ (stopTimes.length : Int) then
          (stopTimes.get? (stopSequence - 1).toNat).map (·.stopID)
        else none
      | none => none
    | _, _ => none

/-- The loop body of `updateVehiclePositions` for one entity that passed the
`Position`/`Vehicle` nil guards: build the `Vehicle` record, including the
direction correction from the static trip and the stop-relationship
derivation. -/
def p3BuildVehicle (gtfs : P3GTFSData) (headerTimestamp : Int)
    (vp : VehiclePosition) : P3Vehicle :=
  let v : P3Vehicle := {
    id := (vp.vehicle.map (fun vd => vd.id.getD "")).getD ""
    label := (vp.vehicle.map (fun vd => vd.label.getD "")).getD ""
    latitude := (vp.position.map (·.latitude)).getD 0
    longitude := (vp.position.map (·.longitude)).getD 0
    updatedAt := headerTimestamp }
  let v := match vp.position.bind (·.bearing) with
    | some b => { v with bearing := b }
    | none => v
  let v := match vp.position.bind (·.speed) with
    | some sp => { v with speed := sp }
    | none => v
  let v := match vp.currentStatus with
    | some st => { v with currentStatus := st.asString }
    | none => v
  let v := match vp.trip with
    | some td =>
      let tripID := tdGetTripId td
      let v := { v with routeID := tdGetRouteId td, tripRel := some tripID }
      match mapLookup gtfs.trips tripID with
      | some trip => { v with directionID := trip.direction }
      | none => v
    | none => v
  let v := { v with stopRel := p3StopRelationship gtfs vp }
  match vp.currentStopSequence with
  | some _ => { v with currentStopSequence := vpGetCurrentStopSequence vp }
  | none => v

/-- One iteration of the entity loop of `updateVehiclePositions`: skip
entities without a vehicle-position payload or failing the
`Position`/`Vehicle` nil guards, and install the built vehicle into the
map keyed by its vehicle ID. -/
def p3ProcessVehicleEntity (gtfs : P3GTFSData) (headerTimestamp : Int)
    (vehicles : List (String × P3Vehicle)) (e : FeedEntity) :
    List (String × P3Vehicle) :=
  match e.vehicle with
  | none => vehicles
  | some vp =>
    if vp.position = none ∨ vp.vehicle = none then vehicles
    else
      let v := p3BuildVehicle gtfs headerTimestamp vp
      mapUpsert vehicles v.id v

/-- The entity loop of `updateVehiclePositions`. -/
def p3UpdateVehiclePositionsCore (gtfs : P3GTFSData) (feed : FeedMessage) :
    List (String × P3Vehicle) :=
  feed.entity.foldl (p3ProcessVehicleEntity gtfs (fhGetTimestamp feed.header)) []

/-- `updateVehiclePositions` at the server level: the fetch/decode outcome is
passed in; on failure the state is untouched and the error returned, on
success the new vehicle map is swapped in. -/
def p3UpdateVehiclePositions (s : P3Server) (fetch : Except String FeedMessage) :
    P3Server × Except String Unit :=
  match fetch with
  | .error e => (s, .error e)
  | .ok feed =>
    ({ s with realtime :=
        { s.realtime with vehicles := p3UpdateVehiclePositionsCore s.gtfs feed } },
     .ok ())

/-! ## Single-file implementation: trip-update reconciliation
(`updateTripUpdates`) -/

/-- The `predictionTime` computation of `updateTripUpdates`: the arrival time
if present, replaced by the departure time when the latter is present and
either no arrival time was set (`IsZero`) or the departure is strictly
later (`After`). -/
def p3PredictionTime (stu : StopTimeUpdate) : Option Int :=
  let pt : Option Int := none
  let pt := match stu.arrival with
    | some a => match a.time with
      | some t => some t
      | none => pt
    | none => pt
  match stu.departure with
  | some d => match d.time with
    | some t =>
      match pt with
      | none => some t
      | some a => if a < t then some t else some a
    | none => pt
  | none => pt

/-- The staleness gate of `updateTripUpdates`: a prediction with no
`predictionTime` is always kept; otherwise it is skipped exactly when
`predictionTime.Before(now.Add(-realtimeUpdateInterval))`. -/
def p3KeepPrediction (now : Int) (pt : Option Int) : Bool :=
  match pt with
  | none => true
  | some t => !(decide (t < now - realtimeUpdateInterval))

/-- The `Prediction` record built by `updateTripUpdates` for one stop-time
update (its `StopId` nil guard already passed): ID is `tripID-stopID`, the
direction comes from the static trip when it resolves and otherwise falls
back to the feed's value, and the optional arrival/departure timestamps
are copied. -/
def p3BuildPrediction (gtfs : P3GTFSData) (td : TripDescriptor)
    (stu : StopTimeUpdate) : P3Prediction :=
  let tripID := tdGetTripId td
  let stopID := stu.stopId.getD ""
  let directionID := match mapLookup gtfs.trips tripID with
    | some trip => trip.direction
    | none => tdGetDirectionId td
  { id := tripID ++ "-" ++ stopID
    stopSequence := stuGetStopSequence stu
    directionID := directionID
    stopRel := stopID
    arrivalTime := stu.arrival.bind (·.time)
    departureTime := stu.departure.bind (·.time) }

/-- The inner loop body of `updateTripUpdates` over one stop-time update:
skip when `StopId` is nil, build the prediction, drop it when stale, and
otherwise append it to both the by-stop and the by-trip map. -/
def p3ProcessStopTimeUpdate (gtfs : P3GTFSData) (now : Int) (td : TripDescriptor)
    (acc : List (String × List P3Prediction) × List (String × List P3Prediction))
    (stu : StopTimeUpdate) :
    List (String × List P3Prediction) × List (String × List P3Prediction) :=
  match stu.stopId with
  | none => acc
  | some stopID =>
    let prediction := p3BuildPrediction gtfs td stu
    if p3KeepPrediction now (p3PredictionTime stu) then
      (mapAppendAt acc.1 stopID prediction,
       mapAppendAt acc.2 (tdGetTripId td) prediction)
    else acc

/-- One iteration of the entity loop of `updateTripUpdates`: entities
without a trip-update payload or without a trip descriptor are skipped. -/
def p3ProcessTripEntity (gtfs : P3GTFSData) (now : Int)
    (acc : List (String × List P3Prediction) × List (String × List P3Prediction))
    (e : FeedEntity) :
    List (String × List P3Prediction) × List (String × List P3Prediction) :=
  match e.tripUpdate with
  | none => acc
  | some tu =>
    match tu.trip with
    | none => acc
    | some td => tu.stopTimeUpdate.foldl (p3ProcessStopTimeUpdate gtfs now td) acc

/-- The entity loop of `updateTripUpdates`, producing the fresh by-stop and
by-trip prediction maps. -/
def p3UpdateTripUpdatesCore (gtfs : P3GTFSData) (now : Int) (feed : FeedMessage) :
    List (String × List P3Prediction) × List (String × List P3Prediction) :=
  feed.entity.foldl (p3ProcessTripEntity gtfs now) ([], [])

/-- `updateTripUpdates` at the server level: on fetch/decode failure the
state is untouched; on success both prediction maps are swapped in. -/
def p3UpdateTripUpdates (s : P3Server) (fetch : Except String FeedMessage)
    (now : Int) : P3Server × Except String Unit :=
  match fetch with
  | .error e => (s, .error e)
  | .ok feed =>
    let maps := p3UpdateTripUpdatesCore s.gtfs now feed
    ({ s with realtime :=
        { s.realtime with predictions := maps.1, tripPredictions := maps.2 } },
     .ok ())

/-- `updateRealtimeData`: run both sub-updates (their errors are only
logged), then unconditionally stamp `realtime.lastUpdate = time.Now()`;
the function itself always returns nil. -/
def p3UpdateRealtimeData (s : P3Server) (vehicleFetch tripFetch : Except String FeedMessage)
    (now : Int) : P3Server :=
  let s := (p3UpdateVehiclePositions s vehicleFetch).1
  let s := (p3UpdateTripUpdates s tripFetch now).1
  { s with realtime := { s.realtime with lastUpdate := now } }

end CotaBus

namespace CotaBus

/-! ## Package implementation: `internal/models` records -/

structure MAgency where
  id : String
  name : String := ""
  url : String := ""
  timezone : String := ""
deriving Repr, DecidableEq

structure MRoute where
  id : String
  agencyID : String := ""
  shortName : String := ""
  longName : String := ""
  description : String := ""
  type : Int := 0
  color : String := ""
  textColor : String := ""
  sortOrder : Int := 0
  directionNames : List String := []
  directionDestinations : List String := []
deriving Repr, DecidableEq

structure MStop where
  id : String
  code : String := ""
  name : String := ""
  description : String := ""
  latitude : Int := 0
  longitude : Int := 0
  zoneID : String := ""
  url : String := ""
  locationType : Int := 0
  parentStation : String := ""
  wheelchairBoarding : Int := 0
deriving Repr, DecidableEq

structure MTrip where
  id : String
  routeID : String := ""
  serviceID : String := ""
  headsign : String := ""
  shortName : String := ""
  directionID : Int := 0
  blockID : String := ""
  shapeID : String := ""
  wheelchairAccessible : Int := 0
  bikesAllowed : Int := 0
deriving Repr, DecidableEq

structure MStopTime where
  tripID : String
  arrivalTime : String := ""
  departureTime : String := ""
  stopID : String
  stopSequence : Int := 0
  stopHeadsign : String := ""
  pickupType : Int := 0
  dropOffType : Int := 0
  shapeDistTraveled : Int := 0
  timepoint : Int := 0
deriving Repr, DecidableEq

structure MCalendar where
  serviceID : String
  monday : Int := 0
  tuesday : Int := 0
  wednesday : Int := 0
  thursday : Int := 0
  friday : Int := 0
  saturday : Int := 0
  sunday : Int := 0
  startDate : String := ""
  endDate : String := ""
deriving Repr, DecidableEq

structure MCalendarDate where
  serviceID : String
  date : String := ""
  exceptionType : Int := 0
deriving Repr, DecidableEq

structure MShape where
  id : String
  latitude : Int := 0
  longitude : Int := 0
  sequence : Int := 0
  distTraveled : Int := 0
deriving Repr, DecidableEq

structure MVehicle where
  id : String
  tripID : String := ""
  routeID : String := ""
  directionID : Int := 0
  latitude : Int := 0
  longitude : Int := 0
  bearing : Int := 0
  speed : Int := 0
  stopID : String := ""
  updatedAt : Int := 0
  vehicleLabel : String := ""
  currentStopSequence : Int := 0
  currentStatus : String := ""
  congestionLevel : String := ""
  occupancyStatus : String := ""
deriving Repr, DecidableEq

structure MPrediction where
  id : String
  tripID : String := ""
  stopID : String := ""
  routeID : String := ""
  directionID : Int := 0
  arrivalTime : Option Int := none
  departureTime : Option Int := none
  status : String := ""
  stopSequence : Int := 0
deriving Repr, DecidableEq

/-! ## Package implementation: `internal/store` -/

/-- `store.Store`: primary maps, realtime maps, secondary indexes and the
two freshness timestamps.  Nested Go maps become nested association
lists; `map[tripID]vehicleID` becomes `List (String × String)`. -/
structure Store where
  agencies : List (String × MAgency) := []
  routes : List (String × MRoute) := []
  stops : List (String × MStop) := []
  trips : List (String × MTrip) := []
  stopTimes : List (String × List (String × MStopTime)) := []
  calendars : List (String × MCalendar) := []
  calendarDates : List (String × List (String × MCalendarDate)) := []
  shapes : List (String × List MShape) := []
  vehicles : List (String × MVehicle) := []
  predictions : List (String × MPrediction) := []
  routesByAgency : List (String × List String) := []
  stopsByRoute : List (String × List String) := []
  tripsByRoute : List (String × List String) := []
  stopTimesByStop : List (String × List (String × MStopTime)) := []
  vehiclesByRoute : List (String × List String) := []
  vehiclesByTrip : List (String × String) := []
  predictionsByStop : List (String × List String) := []
  predictionsByRoute : List (String × List String) := []
  predictionsByTrip : List (String × List String) := []
  lastStaticUpdate : Int := 0
  lastRealtimeUpdate : Int := 0
deriving Repr, DecidableEq

/-- `NewStore()`. -/
def storeNew : Store := {}

/-- `Store.Clear`: reset the static maps and static indexes only; realtime
data, realtime indexes and the update timestamps are untouched. -/
def storeClear (s : Store) : Store :=
  { s with
    agencies := [], routes := [], stops := [], trips := [], stopTimes := [],
    calendars := [], calendarDates := [], shapes := [],
    routesByAgency := [], stopsByRoute := [], tripsByRoute := [],
    stopTimesByStop := [] }

def storeAddAgency (s : Store) (agency : MAgency) : Store :=
  { s with agencies := mapUpsert s.agencies agency.id agency }

def storeAddRoute (s : Store) (route : MRoute) : Store :=
  let s := { s with routes := mapUpsert s.routes route.id route }
  if route.agencyID ≠ "" then
    { s with routesByAgency := mapAppendAt s.routesByAgency route.agencyID route.id }
  else s

def storeAddStop (s : Store) (stop : MStop) : Store :=
  let s := { s with stops := mapUpsert s.stops stop.id stop }
  match mapLookup s.stopTimesByStop stop.id with
  | some _ => s
  | none => { s with stopTimesByStop := mapUpsert s.stopTimesByStop stop.id [] }

def storeAddTrip (s : Store) (trip : MTrip) : Store :=
  let s := { s with trips := mapUpsert s.trips trip.id trip }
  let s := { s with tripsByRoute := mapAppendAt s.tripsByRoute trip.routeID trip.id }
  match mapLookup s.stopTimes trip.id with
  | some _ => s
  | none => { s with stopTimes := mapUpsert s.stopTimes trip.id [] }

/-- `Store.AddStopTime`: record the stop time under both nested maps, then
opportunistically extend the route→stop index when the owning trip is
already known. -/
def storeAddStopTime (s : Store) (stopTime : MStopTime) : Store :=
  let byTrip := (mapLookup s.stopTimes stopTime.tripID).getD []
  let byStop := (mapLookup s.stopTimesByStop stopTime.stopID).getD []
  let s := { s with
    stopTimes := mapUpsert s.stopTimes stopTime.tripID
      (mapUpsert byTrip stopTime.stopID stopTime),
    stopTimesByStop := mapUpsert s.stopTimesByStop stopTime.stopID
      (mapUpsert byStop stopTime.tripID stopTime) }
  match mapLookup s.trips stopTime.tripID with
  | some trip =>
    let cur := (mapLookup s.stopsByRoute trip.routeID).getD []
    { s with stopsByRoute :=
        mapUpsert s.stopsByRoute trip.routeID (listInsertIfAbsent cur stopTime.stopID) }
  | none => s

def storeAddCalendar (s : Store) (calendar : MCalendar) : Store :=
  { s with calendars := mapUpsert s.calendars calendar.serviceID calendar }

def storeAddCalendarDate (s : Store) (calendarDate : MCalendarDate) : Store :=
  let inner := (mapLookup s.calendarDates calendarDate.serviceID).getD []
  { s with
    calendarDates := mapUpsert s.calendarDates calendarDate.serviceID
      (mapUpsert inner calendarDate.date calendarDate) }

def storeAddShape (s : Store) (shape : MShape) : Store :=
  { s with shapes := mapAppendAt s.shapes shape.id shape }

def storeGetTrip (s : Store) (id : String) : Option MTrip :=
  mapLookup s.trips id

def storeGetRoute (s : Store) (id : String) : Option MRoute :=
  mapLookup s.routes id

def storeGetStop (s : Store) (id : String) : Option MStop :=
  mapLookup s.stops id

/-- `Store.GetStopsByRoute`: read the route's stop-ID index and return the
stops that exist in the primary stop map (IDs that do not resolve are
silently dropped by the `if stop, ok := s.stops[id]; ok` guard). -/
def storeGetStopsByRoute (s : Store) (routeID : String) : List MStop :=
  ((mapLookup s.stopsByRoute routeID).getD []).filterMap (fun id => mapLookup s.stops id)

/-- `Store.GetStopTimesByTrip`: the values of the trip's stop-time map. -/
def storeGetStopTimesByTrip (s : Store) (tripID : String) : List MStopTime :=
  ((mapLookup s.stopTimes tripID).getD []).map Prod.snd

def storeGetAllVehicles (s : Store) : List MVehicle :=
  s.vehicles.map Prod.snd

def storeGetAllPredictions (s : Store) : List MPrediction :=
  s.predictions.map Prod.snd

/-- `Store.UpdateVehicles`: build the by-route and by-trip indexes from the
new map, then atomically replace all three. -/
def storeUpdateVehicles (s : Store) (vehicles : List (String × MVehicle)) : Store :=
  let idx := vehicles.foldl (fun (idx : List (String × List String) × List (String × String)) p =>
    let idx := if p.2.routeID ≠ "" then
        (mapAppendAt idx.1 p.2.routeID p.1, idx.2) else idx
    if p.2.tripID ≠ "" then (idx.1, mapUpsert idx.2 p.2.tripID p.1) else idx)
    ([], [])
  { s with vehicles := vehicles, vehiclesByRoute := idx.1, vehiclesByTrip := idx.2 }

/-- `Store.UpdatePredictions`: build the by-stop, by-route and by-trip
indexes from the new map, then atomically replace all four. -/
def storeUpdatePredictions (s : Store) (predictions : List (String × MPrediction)) : Store :=
  let idx := predictions.foldl
    (fun (idx : List (String × List String) × List (String × List String) × List (String × List String)) p =>
      let idx := if p.2.stopID ≠ "" then
          (mapAppendAt idx.1 p.2.stopID p.1, idx.2.1, idx.2.2) else idx
      let idx := if p.2.routeID ≠ "" then
          (idx.1, mapAppendAt idx.2.1 p.2.routeID p.1, idx.2.2) else idx
      if p.2.tripID ≠ "" then (idx.1, idx.2.1, mapAppendAt idx.2.2 p.2.tripID p.1) else idx)
    ([], [], [])
  { s with
    predictions := predictions, predictionsByStop := idx.1,
    predictionsByRoute := idx.2.1, predictionsByTrip := idx.2.2 }

def storeSetLastStaticUpdate (s : Store) (t : Int) : Store :=
  { s with lastStaticUpdate := t }

def storeSetLastRealtimeUpdate (s : Store) (t : Int) : Store :=
  { s with lastRealtimeUpdate := t }

def storeGetLastRealtimeUpdate (s : Store) : Int :=
  s.lastRealtimeUpdate

/-- `Store.BuildStopsByRoute`: clear the route→stop index and rebuild it by
walking every trip's stop-time map, de-duplicating stop IDs per route.
No membership check against the stop map is performed. -/
def storeBuildStopsByRoute (s : Store) : Store :=
  let idx := s.trips.foldl (fun idx (p : String × MTrip) =>
    match mapLookup s.stopTimes p.1 with
    | some stopTimesForTrip =>
      stopTimesForTrip.foldl (fun idx (q : String × MStopTime) =>
        let cur := (mapLookup idx p.2.routeID).getD []
        mapUpsert idx p.2.routeID (listInsertIfAbsent cur q.1)) idx
    | none => idx)
    ([] : List (String × List String))
  { s with stopsByRoute := idx }

/-- `strings.Index(headsign, " TO ")` followed by slicing `headsign[i+4:]`:
`none` when the token does not occur, else everything strictly after the
first `" TO "`. -/
def afterTO (headsign : String) : Option String :=
  (charsSplitAtToken " TO ".data headsign.data).map (fun p => String.mk p.2)

/-- `Store.BuildRouteDirections`: collect, per route and direction, the set
of distinct non-empty headsigns (insertion-ordered here, standing in for
Go's unspecified map order), then, for each route present in the route
map, fill the two-entry `DirectionNames` / `DirectionDestinations` arrays
from the first headsign of each in-range direction; a headsign with a
`" TO "` token yields the destination strictly after the token and the
name `"TO " ++ destination`, otherwise both fall back to the headsign. -/
def storeBuildRouteDirections (s : Store) : Store :=
  let routeDirections := s.trips.foldl
    (fun (acc : List (String × List (Int × List String))) (p : String × MTrip) =>
      let trip := p.2
      let rd := (mapLookup acc trip.routeID).getD []
      let dirs := (mapLookup rd trip.directionID).getD []
      let dirs := if trip.headsign ≠ "" then listInsertIfAbsent dirs trip.headsign else dirs
      mapUpsert acc trip.routeID (mapUpsert rd trip.directionID dirs)) []
  let routes := routeDirections.foldl
    (fun (routes : List (String × MRoute)) (rp : String × List (Int × List String)) =>
      match mapLookup routes rp.1 with
      | none => routes
      | some route =>
        let nd := rp.2.foldl
          (fun (nd : List String × List String) (dp : Int × List String) =>
            if dp.1 < 0 ∨ dp.1 > 1 then nd
            else match dp.2 with
              | [] => nd
              | headsign :: _ =>
                match afterTO headsign with
                | some destination =>
                  (nd.1.set dp.1.toNat ("TO " ++ destination),
                   nd.2.set dp.1.toNat destination)
                | none =>
                  (nd.1.set dp.1.toNat headsign, nd.2.set dp.1.toNat headsign))
          (["", ""], ["", ""])
        mapUpsert routes rp.1
          { route with directionNames := nd.1, directionDestinations := nd.2 })
    s.routes
  { s with routes := routes }

end CotaBus

namespace CotaBus

/-! ## Package implementation: `internal/updater` -/

/-- "Set vehicle label if available". -/
def vuSetLabel (vp : VehiclePosition) (v : MVehicle) : MVehicle :=
  match vp.vehicle.bind (·.label) with
  | some label => { v with vehicleLabel := label }
  | none => v

/-- "Set trip information if available": trip ID, route ID and the feed's
raw direction, each only when its field is present. -/
def vuSetTrip (vp : VehiclePosition) (v : MVehicle) : MVehicle :=
  match vp.trip with
  | some td =>
    let v := match td.tripId with
      | some tripId => { v with tripID := tripId }
      | none => v
    let v := match td.routeId with
      | some routeId => { v with routeID := routeId }
      | none => v
    match td.directionId with
    | some directionId => { v with directionID := directionId }
    | none => v
  | none => v

/-- "Get the route ID from the trip if not provided". -/
def vuSetRouteFromTrip (st : Store) (v : MVehicle) : MVehicle :=
  if v.routeID = "" ∧ v.tripID ≠ "" then
    match storeGetTrip st v.tripID with
    | some trip => { v with routeID := trip.routeID }
    | none => v
  else v

/-- "Set position information if available". -/
def vuSetPosition (vp : VehiclePosition) (v : MVehicle) : MVehicle :=
  match vp.position with
  | some pos =>
    let v := { v with latitude := pos.latitude }
    let v := { v with longitude := pos.longitude }
    let v := match pos.bearing with
      | some b => { v with bearing := b }
      | none => v
    match pos.speed with
    | some sp => { v with speed := sp }
    | none => v
  | none => v

/-- "Set stop information if available". -/
def vuSetStopID (vp : VehiclePosition) (v : MVehicle) : MVehicle :=
  match vp.stopId with
  | some stopId => { v with stopID := stopId }
  | none => v

/-- "Set current stop sequence if available". -/
def vuSetCurrentStopSequence (vp : VehiclePosition) (v : MVehicle) : MVehicle :=
  match vp.currentStopSequence with
  | some seq => { v with currentStopSequence := seq }
  | none => v

/-- "Set current status if available". -/
def vuSetCurrentStatus (vp : VehiclePosition) (v : MVehicle) : MVehicle :=
  match vp.currentStatus with
  | some cs => { v with currentStatus := cs.asString }
  | none => v

/-- "Set congestion level if available". -/
def vuSetCongestionLevel (vp : VehiclePosition) (v : MVehicle) : MVehicle :=
  match vp.congestionLevel with
  | some cl => { v with congestionLevel := cl.asString }
  | none => v

/-- "Set occupancy status if available". -/
def vuSetOccupancyStatus (vp : VehiclePosition) (v : MVehicle) : MVehicle :=
  match vp.occupancyStatus with
  | some os => { v with occupancyStatus := os.asString }
  | none => v

/-- The loop body of `VehicleUpdater.processFeed` for an entity that passed
the vehicle-descriptor / vehicle-ID nil guards, as the chain of the
source's conditional assignments.  Note that `UpdatedAt` is stamped with
`time.Now()` (the wall clock at processing time, passed in as `now`). -/
def vuBuildVehicle (st : Store) (now : Int) (vehicleID : String)
    (vp : VehiclePosition) : MVehicle :=
  let v : MVehicle := { id := vehicleID, updatedAt := now }
  let v := vuSetLabel vp v
  let v := vuSetTrip vp v
  let v := vuSetRouteFromTrip st v
  let v := vuSetPosition vp v
  let v := vuSetStopID vp v
  let v := vuSetCurrentStopSequence vp v
  let v := vuSetCurrentStatus vp v
  let v := vuSetCongestionLevel vp v
  vuSetOccupancyStatus vp v

/-- One iteration of the entity loop of `VehicleUpdater.processFeed`:
entities without a vehicle-position payload or without a vehicle ID are
skipped. -/
def vuProcessEntity (st : Store) (now : Int)
    (acc : List (String × MVehicle) × Nat) (e : FeedEntity) :
    List (String × MVehicle) × Nat :=
  match e.vehicle with
  | none => acc
  | some vp =>
    match vp.vehicle with
    | none => acc
    | some vd =>
      match vd.id with
      | none => acc
      | some vehicleID =>
        (mapUpsert acc.1 vehicleID (vuBuildVehicle st now vehicleID vp), acc.2 + 1)

/-- `VehicleUpdater.processFeed`. -/
def vuProcessFeed (st : Store) (now : Int) (feed : FeedMessage) :
    List (String × MVehicle) × Nat :=
  feed.entity.foldl (vuProcessEntity st now) ([], 0)

/-- `VehicleUpdater.Update`: on a download/status/read/unmarshal failure
return the error without touching the store; on success swap the new
vehicle map in via `Store.UpdateVehicles`.  (The last-update time is left
to the trip updater, per the source comment.) -/
def vehicleUpdaterUpdate (st : Store) (fetch : Except String FeedMessage)
    (now : Int) : Store × Except String Unit :=
  match fetch with
  | .error e => (st, .error e)
  | .ok feed => (storeUpdateVehicles st (vuProcessFeed st now feed).1, .ok ())

/-- The inner loop body of `TripUpdater.processFeed` for a stop-time update
whose `StopId` nil guard passed: the prediction is keyed and identified by
`tripID-stopID`, and `DirectionID` is the feed's raw value. -/
def tuBuildPrediction (tripID routeID : String) (td : TripDescriptor)
    (stopID : String) (stu : StopTimeUpdate) : MPrediction :=
  let p : MPrediction := {
    id := tripID ++ "-" ++ stopID
    tripID := tripID
    stopID := stopID
    routeID := routeID }
  let p := match td.directionId with
    | some directionId => { p with directionID := directionId }
    | none => p
  let p := match stu.stopSequence with
    | some seq => { p with stopSequence := seq }
    | none => p
  let p := match stu.arrival.bind (·.time) with
    | some t => { p with arrivalTime := some t }
    | none => p
  let p := match stu.departure.bind (·.time) with
    | some t => { p with departureTime := some t }
    | none => p
  match stu.scheduleRelationship with
  | some .scheduled => { p with status := "SCHEDULED" }
  | some .skipped => { p with status := "SKIPPED" }
  | some .noData => { p with status := "NO_DATA" }
  | some .unscheduled => { p with status := "UNSCHEDULED" }
  | none => p

/-- The inner stop-time-update loop body of `TripUpdater.processFeed`:
skip updates without a stop ID, then install the prediction under its
`tripID-stopID` key (a Go map assignment, so a later stop-time update for
the same pair overwrites the earlier one). -/
def tuProcessStopTimeUpdate (tripID routeID : String) (td : TripDescriptor)
    (acc : List (String × MPrediction) × Nat) (stu : StopTimeUpdate) :
    List (String × MPrediction) × Nat :=
  match stu.stopId with
  | none => acc
  | some stopID =>
    let prediction := tuBuildPrediction tripID routeID td stopID stu
    (mapUpsert acc.1 prediction.id prediction, acc.2 + 1)

/-- One iteration of the entity loop of `TripUpdater.processFeed`: entities
without a trip-update payload or a trip ID are skipped, and the route ID
falls back to the static trip's route when the feed omits it. -/
def tuProcessEntity (st : Store) (acc : List (String × MPrediction) × Nat)
    (e : FeedEntity) : List (String × MPrediction) × Nat :=
  match e.tripUpdate with
  | none => acc
  | some tu =>
    match tu.trip with
    | none => acc
    | some td =>
      match td.tripId with
      | none => acc
      | some tripID =>
        let routeID := match td.routeId with
          | some routeId => routeId
          | none => ""
        let routeID :=
          if routeID = "" then
            match storeGetTrip st tripID with
            | some trip => trip.routeID
            | none => routeID
          else routeID
        tu.stopTimeUpdate.foldl (tuProcessStopTimeUpdate tripID routeID td) acc

/-- `TripUpdater.processFeed`.  No staleness filtering is performed. -/
def tuProcessFeed (st : Store) (feed : FeedMessage) :
    List (String × MPrediction) × Nat :=
  feed.entity.foldl (tuProcessEntity st) ([], 0)

/-- `TripUpdater.Update`: on failure return the error without touching the
store; on success swap the predictions in and stamp
`Store.SetLastRealtimeUpdate(time.Now())`. -/
def tripUpdaterUpdate (st : Store) (fetch : Except String FeedMessage)
    (now : Int) : Store × Except String Unit :=
  match fetch with
  | .error e => (st, .error e)
  | .ok feed =>
    let st := storeUpdatePredictions st (tuProcessFeed st feed).1
    (storeSetLastRealtimeUpdate st now, .ok ())

/-! ## Package implementation: the API layer's direction substitution

`vehicleToResource` and `predictionToResource` both carry the comment
"Work around COTA GTFS-realtime bug: direction_id values don't match
static GTFS" and replace the stored direction with the trip's direction
whenever the trip resolves. -/

/-- The `direction_id` attribute emitted by `vehicleToResource`. -/
def vehicleResourceDirectionID (st : Store) (vehicle : MVehicle) : Int :=
  if vehicle.tripID ≠ "" then
    match storeGetTrip st vehicle.tripID with
    | some trip => trip.directionID
    | none => vehicle.directionID
  else vehicle.directionID

/-- The `direction_id` attribute emitted by `predictionToResource`. -/
def predictionResourceDirectionID (st : Store) (prediction : MPrediction) : Int :=
  if prediction.tripID ≠ "" then
    match storeGetTrip st prediction.tripID with
    | some trip => trip.directionID
    | none => prediction.directionID
  else prediction.directionID

end CotaBus

namespace CotaBus

/-! ## CSV rows and cell parsing

A parsed CSV row is modelled as a field-name → cell map (`readCSV` of the
package loader produces exactly that; the single-file `parseCSV` indexes
a row slice through a header map, which for rows that line up with the
header is the same function). -/

def CSVRecord : Type := List (String × String)

/-- Cell access `record[field]` with Go's missing-key default. -/
def recGet (record : CSVRecord) (field : String) : String :=
  (mapLookup record field).getD ""

/-- Decimal digits of `strconv.Atoi`, accumulated left to right; any
non-digit character fails the parse. -/
def parseNatDigitsAux (acc : Nat) : List Char → Option Nat
  | [] => some acc
  | c :: rest =>
    if c.isDigit then parseNatDigitsAux (acc * 10 + (c.toNat - 48)) rest else none

/-- `strconv.Atoi`'s accepted syntax: an optional sign followed by at
least one decimal digit.  (Overflow, which Atoi also rejects, is not
modelled; the parsed columns carry small values.) -/
def goAtoiChars : List Char → Option Int
  | [] => none
  | '-' :: rest =>
    match rest with
    | [] => none
    | _ => (parseNatDigitsAux 0 rest).map (fun n => -(n : Int))
  | '+' :: rest =>
    match rest with
    | [] => none
    | _ => (parseNatDigitsAux 0 rest).map (fun n => (n : Int))
  | l => (parseNatDigitsAux 0 l).map (fun n => (n : Int))

/-- `strconv.Atoi` with its error ignored (the single-file loader does
`directionID, _ := strconv.Atoi(...)`): a non-integer cell yields 0. -/
def goAtoi (s : String) : Int :=
  (goAtoiChars s.data).getD 0

/-- `getInt` of the package loader: empty or unparsable cells yield 0. -/
def recGetInt (record : CSVRecord) (field : String) : Int :=
  match mapLookup record field with
  | some val => if val ≠ "" then (goAtoiChars val.data).getD 0 else 0
  | none => 0

/-- `getFloat` of the package loader.  Float cells are carried as integers
(see the module docstring); parse failure yields 0 as in the source. -/
def recGetFloat (record : CSVRecord) (field : String) : Int :=
  recGetInt record field

/-- One file of the GTFS archive: its base name together with the outcome
of reading its CSV rows (`readCSV` / `parseCSV` can fail on malformed
CSV, which is the parse-failure case of both loaders). -/
def ZipEntry : Type := String × Except String (List CSVRecord)

/-! ## Single-file implementation: static GTFS load (`parseGTFS`, `loadGTFS`) -/

/-- `cleanCOTADestination`: slice the headsign from the first `" TO "`
token onward (`destination[toIndex:]`) and trim surrounding whitespace;
without the token (or if the slice trims to nothing) the input is
returned unchanged. -/
def cleanCOTADestination (destination : String) : String :=
  match charsSplitAtToken " TO ".data destination.data with
  | none => destination
  | some (_, suffixChars) =>
    let cleaned := goTrimSpace (String.mk (" TO ".data ++ suffixChars))
    if cleaned = "" then destination else cleaned

/-- The `directionDestinations` loop of `parseGTFS` for one route: a
two-element array written at index `trip.Direction` for every trip of the
route (later trips in iteration order overwrite earlier ones, empty
headsigns included).  A direction outside `{0,1}` makes the Go code index
out of the two-element slice's range; that panic is modelled as
`Except.error`. -/
def p3DirectionDestinations (routeID : String) (trips : List (String × P3Trip)) :
    Except String (List String) :=
  trips.foldl (fun acc (p : String × P3Trip) =>
    match acc with
    | .error e => .error e
    | .ok arr =>
      if p.2.routeID = routeID then
        if 0 ≤ p.2.direction ∧ p.2.direction < 2 then
          .ok (arr.set p.2.direction.toNat (cleanCOTADestination p.2.headsign))
        else .error "runtime error: index out of range"
      else .ok arr)
    (.ok ["", ""])

/-- `parseRoutes` row handler. -/
def p3ParseRouteRow (record : CSVRecord) : P3Route :=
  { id := recGet record "route_id"
    shortName := recGet record "route_short_name"
    longName := recGet record "route_long_name"
    type := 3
    color := recGet record "route_color"
    textColor := recGet record "route_text_color" }

/-- `parseStops` row handler. -/
def p3ParseStopRow (record : CSVRecord) : P3Stop :=
  { id := recGet record "stop_id"
    name := recGet record "stop_name"
    latitude := recGetFloat record "stop_lat"
    longitude := recGetFloat record "stop_lon"
    description := recGet record "stop_desc" }

/-- `parseTrips` row handler: `direction_id` goes through `strconv.Atoi`
with the error ignored. -/
def p3ParseTripRow (record : CSVRecord) : P3Trip :=
  { id := recGet record "trip_id"
    routeID := recGet record "route_id"
    serviceID := recGet record "service_id"
    headsign := recGet record "trip_headsign"
    direction := goAtoi (recGet record "direction_id")
    shapeID := recGet record "shape_id" }

/-- `parseStopTimes` row handler. -/
def p3ParseStopTimeRow (record : CSVRecord) : P3StopTime :=
  { tripID := recGet record "trip_id"
    stopID := recGet record "stop_id"
    stopSequence := (goAtoi (recGet record "stop_sequence")).toNat
    arrivalTime := recGet record "arrival_time"
    departureTime := recGet record "departure_time" }

/-- `parseShapes` row handler (one shape point). -/
def p3ParseShapeRow (record : CSVRecord) : String × P3ShapePoint :=
  (recGet record "shape_id",
   { lat := recGetFloat record "shape_pt_lat"
     lon := recGetFloat record "shape_pt_lon"
     sequence := (goAtoi (recGet record "shape_pt_sequence")).toNat })

/-- `buildRouteStopMappings`: derive `tripStops` (trip → stop IDs) from the
by-stop stop-time map, then union each trip's stops into its route's
stop set.  The stop IDs come from stop-time rows; no check against the
stop map is made. -/
def p3BuildRouteStopMappings (g : P3GTFSData) : P3GTFSData :=
  let tripStops := g.stopTimes.foldl
    (fun (acc : List (String × List String)) (p : String × List P3StopTime) =>
      p.2.foldl (fun acc st => mapAppendAt acc st.tripID p.1) acc) []
  let routeStops := g.trips.foldl
    (fun (acc : List (String × List String)) (p : String × P3Trip) =>
      let cur := (mapLookup acc p.2.routeID).getD []
      match mapLookup tripStops p.1 with
      | some stops => mapUpsert acc p.2.routeID (stops.foldl listInsertIfAbsent cur)
      | none => mapUpsert acc p.2.routeID cur) []
  { g with routeStops := routeStops }

/-- The per-file dispatch of `parseGTFS` applied to a fresh snapshot:
recognized tables accumulate entities, a failed `parseCSV` aborts the
whole parse, unrecognized files are skipped. -/
def p3ParseFile (g : P3GTFSData) : ZipEntry → Except String P3GTFSData
  | (name, result) =>
    if name = "routes.txt" then
      match result with
      | .error e => .error ("failed to parse routes: " ++ e)
      | .ok records =>
        let routes := records.foldl (fun m r =>
          let route := p3ParseRouteRow r
          mapUpsert m route.id route) g.routes
        .ok { g with routes := routes }
    else if name = "stops.txt" then
      match result with
      | .error e => .error ("failed to parse stops: " ++ e)
      | .ok records =>
        let stops := records.foldl (fun m r =>
          let stop := p3ParseStopRow r
          mapUpsert m stop.id stop) g.stops
        .ok { g with stops := stops }
    else if name = "shapes.txt" then
      match result with
      | .error e => .error ("failed to parse shapes: " ++ e)
      | .ok records =>
        let shapePoints := records.foldl (fun m r =>
          let p := p3ParseShapeRow r
          mapAppendAt m p.1 p.2) ([] : List (String × List P3ShapePoint))
        let shapes := shapePoints.foldl (fun m p =>
          let pts := p.2.mergeSort (fun a b => a.sequence ≤ b.sequence)
          mapUpsert m p.1 { id := p.1, points := pts }) g.shapes
        .ok { g with shapes := shapes }
    else if name = "trips.txt" then
      match result with
      | .error e => .error ("failed to parse trips: " ++ e)
      | .ok records =>
        let trips := records.foldl (fun m r =>
          let trip := p3ParseTripRow r
          mapUpsert m trip.id trip) g.trips
        .ok { g with trips := trips }
    else if name = "stop_times.txt" then
      match result with
      | .error e => .error ("failed to parse stop times: " ++ e)
      | .ok records =>
        .ok (records.foldl (fun g r =>
          let st := p3ParseStopTimeRow r
          { g with
            stopTimes := mapAppendAt g.stopTimes st.stopID st,
            tripStops := mapAppendAt g.tripStops st.tripID st }) g)
    else .ok g

/-- `parseGTFS`: build a fresh, isolated snapshot from the archive's files,
derive the route→stop mapping and the per-route direction destinations,
and only then hand the snapshot back for the swap.  Any table failure
(or the out-of-range direction panic) aborts with no snapshot. -/
def p3ParseGTFS (files : List ZipEntry) : Except String P3GTFSData := do
  let g ← files.foldlM p3ParseFile ({} : P3GTFSData)
  let g := p3BuildRouteStopMappings g
  let routes ← g.routes.foldlM (fun routes (p : String × P3Route) => do
    let dests ← p3DirectionDestinations p.2.id g.trips
    pure (mapUpsert routes p.1 { p.2 with directionDestinations := dests })) g.routes
  pure { g with routes := routes }

/-- `parseGTFS` run against the server: the snapshot swap happens only on a
fully successful parse. -/
def p3ParseGTFSServer (s : P3Server) (files : List ZipEntry) :
    P3Server × Except String Unit :=
  match p3ParseGTFS files with
  | .error e => (s, .error e)
  | .ok g => ({ s with gtfs := g }, .ok ())

/-- `downloadAndParseGTFS`: a failed download (HTTP error, non-200 status,
copy error, zip-open error) aborts before any parsing; otherwise parse
the downloaded archive.  (Saving the local fallback copy is best-effort
and does not affect the state.) -/
def p3DownloadAndParseGTFS (s : P3Server) (download : Except String (List ZipEntry)) :
    P3Server × Except String Unit :=
  match download with
  | .error e => (s, .error e)
  | .ok files => p3ParseGTFSServer s files

/-- `loadGTFS`: try the fresh download, and on any failure fall back to
parsing the local copy when one exists. -/
def p3LoadGTFS (s : P3Server) (download : Except String (List ZipEntry))
    (localCopy : Option (List ZipEntry)) : P3Server × Except String Unit :=
  match p3DownloadAndParseGTFS s download with
  | (s', .ok _) => (s', .ok ())
  | (s', .error _) =>
    match localCopy with
    | some files => p3ParseGTFSServer s' files
    | none => (s', .error "no GTFS data available")

end CotaBus

namespace CotaBus

/-! ## Package implementation: the `internal` GTFS `Loader` -/

def loaderProcessAgency (st : Store) (records : List CSVRecord) : Store :=
  records.foldl (fun st record =>
    storeAddAgency st
      { id := recGet record "agency_id"
        name := recGet record "agency_name"
        url := recGet record "agency_url"
        timezone := recGet record "agency_timezone" }) st

def loaderProcessRoutes (st : Store) (records : List CSVRecord) : Store :=
  records.foldl (fun st record =>
    storeAddRoute st
      { id := recGet record "route_id"
        agencyID := recGet record "agency_id"
        shortName := recGet record "route_short_name"
        longName := recGet record "route_long_name"
        description := recGet record "route_desc"
        type := recGetInt record "route_type"
        color := recGet record "route_color"
        textColor := recGet record "route_text_color"
        sortOrder := recGetInt record "route_sort_order" }) st

def loaderProcessStops (st : Store) (records : List CSVRecord) : Store :=
  records.foldl (fun st record =>
    storeAddStop st
      { id := recGet record "stop_id"
        code := recGet record "stop_code"
        name := recGet record "stop_name"
        description := recGet record "stop_desc"
        latitude := recGetFloat record "stop_lat"
        longitude := recGetFloat record "stop_lon"
        zoneID := recGet record "zone_id"
        url := recGet record "stop_url"
        locationType := recGetInt record "location_type"
        parentStation := recGet record "parent_station"
        wheelchairBoarding := recGetInt record "wheelchair_boarding" }) st

def loaderProcessTrips (st : Store) (records : List CSVRecord) : Store :=
  records.foldl (fun st record =>
    storeAddTrip st
      { id := recGet record "trip_id"
        routeID := recGet record "route_id"
        serviceID := recGet record "service_id"
        headsign := recGet record "trip_headsign"
        shortName := recGet record "trip_short_name"
        directionID := recGetInt record "direction_id"
        blockID := recGet record "block_id"
        shapeID := recGet record "shape_id"
        wheelchairAccessible := recGetInt record "wheelchair_accessible"
        bikesAllowed := recGetInt record "bikes_allowed" }) st

def loaderProcessStopTimes (st : Store) (records : List CSVRecord) : Store :=
  records.foldl (fun st record =>
    storeAddStopTime st
      { tripID := recGet record "trip_id"
        arrivalTime := recGet record "arrival_time"
        departureTime := recGet record "departure_time"
        stopID := recGet record "stop_id"
        stopSequence := recGetInt record "stop_sequence"
        stopHeadsign := recGet record "stop_headsign"
        pickupType := recGetInt record "pickup_type"
        dropOffType := recGetInt record "drop_off_type"
        shapeDistTraveled := recGetFloat record "shape_dist_traveled"
        timepoint := recGetInt record "timepoint" }) st

def loaderProcessCalendar (st : Store) (records : List CSVRecord) : Store :=
  records.foldl (fun st record =>
    storeAddCalendar st
      { serviceID := recGet record "service_id"
        monday := recGetInt record "monday"
        tuesday := recGetInt record "tuesday"
        wednesday := recGetInt record "wednesday"
        thursday := recGetInt record "thursday"
        friday := recGetInt record "friday"
        saturday := recGetInt record "saturday"
        sunday := recGetInt record "sunday"
        startDate := recGet record "start_date"
        endDate := recGet record "end_date" }) st

def loaderProcessCalendarDates (st : Store) (records : List CSVRecord) : Store :=
  records.foldl (fun st record =>
    storeAddCalendarDate st
      { serviceID := recGet record "service_id"
        date := recGet record "date"
        exceptionType := recGetInt record "exception_type" }) st

def loaderProcessShapes (st : Store) (records : List CSVRecord) : Store :=
  records.foldl (fun st record =>
    storeAddShape st
      { id := recGet record "shape_id"
        latitude := recGetFloat record "shape_pt_lat"
        longitude := recGetFloat record "shape_pt_lon"
        sequence := recGetInt record "shape_pt_sequence"
        distTraveled := recGetFloat record "shape_dist_traveled" }) st

/-- The `switch filepath.Base(file.Name)` dispatch of `Loader.Load`:
`none` for unrecognized files. -/
def loaderTableHandler (name : String) : Option (Store → List CSVRecord → Store) :=
  if name = "agency.txt" then some loaderProcessAgency
  else if name = "routes.txt" then some loaderProcessRoutes
  else if name = "stops.txt" then some loaderProcessStops
  else if name = "trips.txt" then some loaderProcessTrips
  else if name = "stop_times.txt" then some loaderProcessStopTimes
  else if name = "calendar.txt" then some loaderProcessCalendar
  else if name = "calendar_dates.txt" then some loaderProcessCalendarDates
  else if name = "shapes.txt" then some loaderProcessShapes
  else none

/-- The file loop of `Loader.Load`: process each recognized file in archive
order, adding records directly into the (already cleared) store; a failed
`readCSV` aborts immediately, leaving whatever has been added so far. -/
def loaderProcessFiles (st : Store) : List ZipEntry → Store × Except String Unit
  | [] => (st, .ok ())
  | (name, result) :: rest =>
    match loaderTableHandler name with
    | none => loaderProcessFiles st rest
    | some handler =>
      match result with
      | .error e => (st, .error e)
      | .ok records => loaderProcessFiles (handler st records) rest

/-- `Loader.Load`: a failed download leaves the store alone, but once the
archive opens the previous static snapshot is destroyed (`store.Clear()`)
*before* any table is parsed; only when every table processed does the
loader derive the indexes and stamp the static-update time.  There is no
local-copy fallback in this loader. -/
def loaderLoad (st : Store) (download : Except String (List ZipEntry))
    (now : Int) : Store × Except String Unit :=
  match download with
  | .error e => (st, .error e)
  | .ok files =>
    let st := storeClear st
    match loaderProcessFiles st files with
    | (st, .error e) => (st, .error e)
    | (st, .ok _) =>
      let st := storeBuildStopsByRoute st
      let st := storeBuildRouteDirections st
      (storeSetLastStaticUpdate st now, .ok ())

end CotaBus

namespace CotaBus

/-! ## Claim-side definitions

These definitions follow the wording of the claims (they are the
refinement targets the source-derived pipelines are compared with). -/

/-- C1's comparison time: the later of the two timestamps when both are
present, the present one when only one is, `none` when neither is. -/
def specComparisonTime (arrival departure : Option Int) : Option Int :=
  match arrival, departure with
  | some a, some d => some (max a d)
  | some a, none => some a
  | none, some d => some d
  | none, none => none

/-- C1's staleness criterion: a prediction is fresh when its comparison
time is not older than "now minus one realtime poll interval"; a
prediction without timestamps is always fresh. -/
def specFresh (now : Int) (comparisonTime : Option Int) : Bool :=
  match comparisonTime with
  | none => true
  | some t => decide (now - realtimeUpdateInterval ≤ t)

/-- The predictions of one trip update that survive C1's staleness filter
(in feed order). -/
def specKeptPredictions (gtfs : P3GTFSData) (now : Int) (td : TripDescriptor)
    (stus : List StopTimeUpdate) : List P3Prediction :=
  stus.filterMap (fun stu =>
    match stu.stopId with
    | none => none
    | some _ =>
      if specFresh now
          (specComparisonTime (stu.arrival.bind (·.time)) (stu.departure.bind (·.time)))
      then some (p3BuildPrediction gtfs td stu)
      else none)

/-- The full installed-prediction multiset C1 describes: one prediction per
stop-time update carrying a stop ID, minus the stale ones. -/
def specInstalledPredictions (gtfs : P3GTFSData) (now : Int) (feed : FeedMessage) :
    List P3Prediction :=
  feed.entity.flatMap (fun e =>
    match e.tripUpdate with
    | none => []
    | some tu =>
      match tu.trip with
      | none => []
      | some td => specKeptPredictions gtfs now td tu.stopTimeUpdate)

/-- C5's stop-relationship rule: a feed-supplied stop ID wins; otherwise a
current-stop-sequence `s` with `1 ≤ s ≤ n` against the trip's known
ordered stop-time list of length `n` selects the entry at 0-based index
`s - 1`; otherwise there is no stop relationship. -/
def specStopRelationship (gtfs : P3GTFSData) (vp : VehiclePosition) : Option String :=
  if vpGetStopId vp ≠ "" then some (vpGetStopId vp)
  else match vp.trip, vp.currentStopSequence with
    | some td, some _ =>
      let s := vpGetCurrentStopSequence vp
      match mapLookup gtfs.tripStops (tdGetTripId td) with
      | some stopTimes =>
        if 1 ≤ s ∧ s ≤ (stopTimes.length : Int) then
          (stopTimes.get? (s - 1).toNat).map (·.stopID)
        else none
      | none => none
    | _, _ => none

/-! ## Helper lemmas about the Go-map operations -/

universe u' v'

variable {κ : Type u'} {α : Type v'} [DecidableEq κ]

theorem mem_fst_of_mapUpsert {m : List (κ × α)} {k a : κ} {v : α}
    (h : a ∈ (mapUpsert m k v).map Prod.fst) :
    a = k ∨ a ∈ m.map Prod.fst := by
  induction m with
  | nil => simpa [mapUpsert] using h
  | cons p rest ih =>
    obtain ⟨k', v'⟩ := p
    by_cases hk : k' = k
    · simp only [mapUpsert, if_pos hk] at h
      rcases List.mem_map.mp h with ⟨q, hq, rfl⟩
      rcases List.mem_cons.mp hq with rfl | hq'
      · exact Or.inl rfl
      · exact Or.inr (List.mem_map.mpr ⟨q, List.mem_cons_of_mem _ hq', rfl⟩)
    · simp only [mapUpsert, if_neg hk, List.map_cons, List.mem_cons] at h ⊢
      rcases h with rfl | h'
      · exact Or.inr (Or.inl rfl)
      · rcases ih h' with h'' | h''
        · exact Or.inl h''
        · exact Or.inr (Or.inr h'')

theorem nodup_fst_mapUpsert {m : List (κ × α)} {k : κ} {v : α}
    (h : (m.map Prod.fst).Nodup) :
    ((mapUpsert m k v).map Prod.fst).Nodup := by
  induction m with
  | nil => simp [mapUpsert]
  | cons p rest ih =>
    obtain ⟨k', v'⟩ := p
    simp only [List.map_cons, List.nodup_cons] at h
    by_cases hk : k' = k
    · subst hk
      simpa [mapUpsert, List.nodup_cons] using h
    · simp only [mapUpsert, if_neg hk, List.map_cons, List.nodup_cons]
      refine ⟨fun hmem => ?_, ih h.2⟩
      rcases mem_fst_of_mapUpsert hmem with rfl | hmem'
      · exact hk rfl
      · exact h.1 hmem'

theorem all_mapUpsert {m : List (κ × α)} {k : κ} {v : α} {p : κ × α → Bool}
    (hm : m.all p = true) (hv : p (k, v) = true) :
    (mapUpsert m k v).all p = true := by
  induction m with
  | nil => simpa [mapUpsert]
  | cons q rest ih =>
    obtain ⟨k', v'⟩ := q
    simp only [List.all_cons, Bool.and_eq_true] at hm
    by_cases hk : k' = k
    · simpa [mapUpsert, hk, hv] using hm.2
    · simpa [mapUpsert, hk, hm.1] using ih hm.2

theorem mapVals_mapAppendAt {m : List (κ × List α)} {k : κ} {v : α} :
    (mapVals (mapAppendAt m k v)).Perm (mapVals m ++ [v]) := by
  induction m with
  | nil => simp [mapAppendAt, mapVals]
  | cons p rest ih =>
    obtain ⟨k', l⟩ := p
    simp only [mapVals] at ih ⊢
    by_cases hk : k' = k
    · simp only [mapAppendAt, if_pos hk, List.flatMap_cons, List.append_assoc]
      exact List.Perm.append_left _ List.perm_append_comm
    · simp only [mapAppendAt, if_neg hk, List.flatMap_cons, List.append_assoc]
      exact List.Perm.append_left _ ih

end CotaBus

namespace CotaBus

/-! ## C1 machinery: the staleness decision and the fold of `updateTripUpdates` -/

/-- The sequential `predictionTime` computation of the source agrees with
the claim's "later of arrival and departure" comparison time. -/
theorem p3PredictionTime_eq_specComparisonTime (stu : StopTimeUpdate) :
    p3PredictionTime stu
      = specComparisonTime (stu.arrival.bind (·.time)) (stu.departure.bind (·.time)) := by
  unfold p3PredictionTime specComparisonTime
  cases stu.arrival with
  | none =>
    cases stu.departure with
    | none => simp
    | some d => cases hdt : d.time <;> simp [hdt]
  | some a =>
    cases stu.departure with
    | none => cases hat : a.time <;> simp [hat]
    | some d =>
      cases hat : a.time with
      | none => cases hdt : d.time <;> simp [hat, hdt]
      | some ta =>
        cases hdt : d.time with
        | none => simp [hat, hdt]
        | some td =>
          simp only [Option.bind_some, hat, hdt]
          rcases lt_or_le ta td with h | h
          · simp [hat, hdt, if_pos h, max_eq_right h.le]
          · simp [hat, hdt, if_neg (not_lt.mpr h), max_eq_left h]

/-- The source's skip test agrees with the claim's staleness criterion. -/
theorem p3KeepPrediction_eq_specFresh (now : Int) (stu : StopTimeUpdate) :
    p3KeepPrediction now (p3PredictionTime stu)
      = specFresh now
          (specComparisonTime (stu.arrival.bind (·.time)) (stu.departure.bind (·.time))) := by
  rw [← p3PredictionTime_eq_specComparisonTime]
  unfold p3KeepPrediction specFresh
  rcases p3PredictionTime stu with _ | t
  · rfl
  · show (!decide (t < now - realtimeUpdateInterval))
        = decide (now - realtimeUpdateInterval ≤ t)
    rw [← decide_not]
    exact decide_eq_decide.mpr not_lt

/-- The inner stop-time-update fold of `updateTripUpdates` appends exactly
the claim's surviving predictions (as a multiset) to both maps. -/
theorem p3stusFold_perm (gtfs : P3GTFSData) (now : Int) (td : TripDescriptor) :
    ∀ (stus : List StopTimeUpdate)
      (acc : List (String × List P3Prediction) × List (String × List P3Prediction)),
    (mapVals (stus.foldl (p3ProcessStopTimeUpdate gtfs now td) acc).1).Perm
        (mapVals acc.1 ++ specKeptPredictions gtfs now td stus)
    ∧ (mapVals (stus.foldl (p3ProcessStopTimeUpdate gtfs now td) acc).2).Perm
        (mapVals acc.2 ++ specKeptPredictions gtfs now td stus) := by
  intro stus
  induction stus with
  | nil => intro acc; simp [specKeptPredictions]
  | cons stu rest ih =>
    intro acc
    rw [List.foldl_cons]
    have hkeepeq := p3KeepPrediction_eq_specFresh now stu
    cases hsid : stu.stopId with
    | none =>
      have hstep : p3ProcessStopTimeUpdate gtfs now td acc stu = acc := by
        simp [p3ProcessStopTimeUpdate, hsid]
      rw [hstep]
      have hspec : specKeptPredictions gtfs now td (stu :: rest)
          = specKeptPredictions gtfs now td rest := by
        unfold specKeptPredictions; rw [List.filterMap_cons, hsid]
      rw [hspec]; exact ih acc
    | some sid =>
      by_cases hkeep : p3KeepPrediction now (p3PredictionTime stu) = true
      · have hstep : p3ProcessStopTimeUpdate gtfs now td acc stu
            = (mapAppendAt acc.1 sid (p3BuildPrediction gtfs td stu),
               mapAppendAt acc.2 (tdGetTripId td) (p3BuildPrediction gtfs td stu)) := by
          simp [p3ProcessStopTimeUpdate, hsid, hkeep]
        have hspec : specKeptPredictions gtfs now td (stu :: rest)
            = p3BuildPrediction gtfs td stu :: specKeptPredictions gtfs now td rest := by
          unfold specKeptPredictions
          rw [List.filterMap_cons, hsid]
          rw [hkeepeq] at hkeep
          simp [hkeep]
        rw [hstep, hspec]
        obtain ⟨ih1, ih2⟩ := ih (mapAppendAt acc.1 sid (p3BuildPrediction gtfs td stu),
          mapAppendAt acc.2 (tdGetTripId td) (p3BuildPrediction gtfs td stu))
        constructor
        · refine ih1.trans ?_
          refine (List.Perm.append_right _ mapVals_mapAppendAt).trans ?_
          simp [List.append_assoc]
        · refine ih2.trans ?_
          refine (List.Perm.append_right _ mapVals_mapAppendAt).trans ?_
          simp [List.append_assoc]
      · have hstep : p3ProcessStopTimeUpdate gtfs now td acc stu = acc := by
          simp [p3ProcessStopTimeUpdate, hsid, Bool.eq_false_iff.mpr hkeep]
        have hspec : specKeptPredictions gtfs now td (stu :: rest)
            = specKeptPredictions gtfs now td rest := by
          unfold specKeptPredictions
          rw [List.filterMap_cons, hsid]
          rw [hkeepeq] at hkeep
          simp [Bool.eq_false_iff.mpr hkeep]
        rw [hstep, hspec]; exact ih acc

/-- The entity fold of `updateTripUpdates` appends exactly the claim's
surviving predictions, feed-wide. -/
theorem p3entityFold_perm (gtfs : P3GTFSData) (now : Int) :
    ∀ (entities : List FeedEntity)
      (acc : List (String × List P3Prediction) × List (String × List P3Prediction)),
    (mapVals (entities.foldl (p3ProcessTripEntity gtfs now) acc).1).Perm
        (mapVals acc.1 ++ entities.flatMap (fun e =>
          match e.tripUpdate with
          | none => []
          | some tu =>
            match tu.trip with
            | none => []
            | some td => specKeptPredictions gtfs now td tu.stopTimeUpdate))
    ∧ (mapVals (entities.foldl (p3ProcessTripEntity gtfs now) acc).2).Perm
        (mapVals acc.2 ++ entities.flatMap (fun e =>
          match e.tripUpdate with
          | none => []
          | some tu =>
            match tu.trip with
            | none => []
            | some td => specKeptPredictions gtfs now td tu.stopTimeUpdate)) := by
  intro entities
  induction entities with
  | nil => intro acc; simp
  | cons e rest ih =>
    intro acc
    rw [List.foldl_cons, List.flatMap_cons]
    cases htu : e.tripUpdate with
    | none =>
      have hstep : p3ProcessTripEntity gtfs now acc e = acc := by
        simp [p3ProcessTripEntity, htu]
      rw [hstep]; simpa using ih acc
    | some tu =>
      cases htd : tu.trip with
      | none =>
        have hstep : p3ProcessTripEntity gtfs now acc e = acc := by
          simp [p3ProcessTripEntity, htu, htd]
        rw [hstep]; simpa [htd] using ih acc
      | some td =>
        have hstep : p3ProcessTripEntity gtfs now acc e
            = tu.stopTimeUpdate.foldl (p3ProcessStopTimeUpdate gtfs now td) acc := by
          simp [p3ProcessTripEntity, htu, htd]
        rw [hstep]
        simp only [htd]
        obtain ⟨hin1, hin2⟩ := p3stusFold_perm gtfs now td tu.stopTimeUpdate acc
        obtain ⟨ih1, ih2⟩ :=
          ih (tu.stopTimeUpdate.foldl (p3ProcessStopTimeUpdate gtfs now td) acc)
        constructor
        · refine ih1.trans ?_
          refine (List.Perm.append_right _ hin1).trans ?_
          simp [List.append_assoc]
        · refine ih2.trans ?_
          refine (List.Perm.append_right _ hin2).trans ?_
          simp [List.append_assoc]

end CotaBus

namespace CotaBus

/-! ## Projection lemmas for the vehicle builders -/

theorem vuSetLabel_fields (vp : VehiclePosition) (v : MVehicle) :
    (vuSetLabel vp v).updatedAt = v.updatedAt
    ∧ (vuSetLabel vp v).directionID = v.directionID
    ∧ (vuSetLabel vp v).stopID = v.stopID
    ∧ (vuSetLabel vp v).tripID = v.tripID := by
  unfold vuSetLabel; repeat' split
  all_goals exact ⟨rfl, rfl, rfl, rfl⟩

theorem vuSetTrip_fields (vp : VehiclePosition) (v : MVehicle) :
    (vuSetTrip vp v).updatedAt = v.updatedAt
    ∧ (vuSetTrip vp v).stopID = v.stopID
    ∧ (vuSetTrip vp v).directionID
        = (match vp.trip with
           | some td => td.directionId.getD v.directionID
           | none => v.directionID) := by
  unfold vuSetTrip
  cases htr : vp.trip with
  | none => exact ⟨rfl, rfl, rfl⟩
  | some td =>
    dsimp only
    repeat' split
    all_goals simp_all

theorem vuSetRouteFromTrip_fields (st : Store) (v : MVehicle) :
    (vuSetRouteFromTrip st v).updatedAt = v.updatedAt
    ∧ (vuSetRouteFromTrip st v).directionID = v.directionID
    ∧ (vuSetRouteFromTrip st v).stopID = v.stopID := by
  unfold vuSetRouteFromTrip; repeat' split
  all_goals exact ⟨rfl, rfl, rfl⟩

theorem vuSetPosition_fields (vp : VehiclePosition) (v : MVehicle) :
    (vuSetPosition vp v).updatedAt = v.updatedAt
    ∧ (vuSetPosition vp v).directionID = v.directionID
    ∧ (vuSetPosition vp v).stopID = v.stopID := by
  unfold vuSetPosition; repeat' split
  all_goals exact ⟨rfl, rfl, rfl⟩

theorem vuSetStopID_fields (vp : VehiclePosition) (v : MVehicle) :
    (vuSetStopID vp v).updatedAt = v.updatedAt
    ∧ (vuSetStopID vp v).directionID = v.directionID
    ∧ (vuSetStopID vp v).stopID = vp.stopId.getD v.stopID := by
  unfold vuSetStopID; repeat' split
  all_goals simp_all

theorem vuSetCurrentStopSequence_fields (vp : VehiclePosition) (v : MVehicle) :
    (vuSetCurrentStopSequence vp v).updatedAt = v.updatedAt
    ∧ (vuSetCurrentStopSequence vp v).directionID = v.directionID
    ∧ (vuSetCurrentStopSequence vp v).stopID = v.stopID := by
  unfold vuSetCurrentStopSequence; repeat' split
  all_goals exact ⟨rfl, rfl, rfl⟩

theorem vuSetCurrentStatus_fields (vp : VehiclePosition) (v : MVehicle) :
    (vuSetCurrentStatus vp v).updatedAt = v.updatedAt
    ∧ (vuSetCurrentStatus vp v).directionID = v.directionID
    ∧ (vuSetCurrentStatus vp v).stopID = v.stopID := by
  unfold vuSetCurrentStatus; repeat' split
  all_goals exact ⟨rfl, rfl, rfl⟩

theorem vuSetCongestionLevel_fields (vp : VehiclePosition) (v : MVehicle) :
    (vuSetCongestionLevel vp v).updatedAt = v.updatedAt
    ∧ (vuSetCongestionLevel vp v).directionID = v.directionID
    ∧ (vuSetCongestionLevel vp v).stopID = v.stopID := by
  unfold vuSetCongestionLevel; repeat' split
  all_goals exact ⟨rfl, rfl, rfl⟩

theorem vuSetOccupancyStatus_fields (vp : VehiclePosition) (v : MVehicle) :
    (vuSetOccupancyStatus vp v).updatedAt = v.updatedAt
    ∧ (vuSetOccupancyStatus vp v).directionID = v.directionID
    ∧ (vuSetOccupancyStatus vp v).stopID = v.stopID := by
  unfold vuSetOccupancyStatus; repeat' split
  all_goals exact ⟨rfl, rfl, rfl⟩

/-- `VehicleUpdater.processFeed` stamps every vehicle with the wall clock
passed as `now`, not with the feed header's timestamp. -/
theorem vuBuildVehicle_updatedAt (st : Store) (now : Int) (vid : String)
    (vp : VehiclePosition) : (vuBuildVehicle st now vid vp).updatedAt = now := by
  unfold vuBuildVehicle
  dsimp only
  rw [(vuSetOccupancyStatus_fields _ _).1, (vuSetCongestionLevel_fields _ _).1,
    (vuSetCurrentStatus_fields _ _).1, (vuSetCurrentStopSequence_fields _ _).1,
    (vuSetStopID_fields _ _).1, (vuSetPosition_fields _ _).1,
    (vuSetRouteFromTrip_fields _ _).1, (vuSetTrip_fields _ _).1,
    (vuSetLabel_fields _ _).1]

/-- The installed direction of `VehicleUpdater.processFeed` is the feed's
raw trip-descriptor value (0 when absent); the static trip is never
consulted for it. -/
theorem vuBuildVehicle_directionID (st : Store) (now : Int) (vid : String)
    (vp : VehiclePosition) :
    (vuBuildVehicle st now vid vp).directionID
      = (match vp.trip with
         | some td => td.directionId.getD 0
         | none => 0) := by
  unfold vuBuildVehicle
  dsimp only
  rw [(vuSetOccupancyStatus_fields _ _).2.1, (vuSetCongestionLevel_fields _ _).2.1,
    (vuSetCurrentStatus_fields _ _).2.1, (vuSetCurrentStopSequence_fields _ _).2.1,
    (vuSetStopID_fields _ _).2.1, (vuSetPosition_fields _ _).2.1,
    (vuSetRouteFromTrip_fields _ _).2.1, (vuSetTrip_fields _ _).2.2,
    (vuSetLabel_fields _ _).2.1]

/-- The installed stop ID of `VehicleUpdater.processFeed` is exactly the
feed-supplied stop ID (empty when absent); no derivation from the
current stop sequence is attempted. -/
theorem vuBuildVehicle_stopID (st : Store) (now : Int) (vid : String)
    (vp : VehiclePosition) :
    (vuBuildVehicle st now vid vp).stopID = vp.stopId.getD "" := by
  unfold vuBuildVehicle
  dsimp only
  rw [(vuSetOccupancyStatus_fields _ _).2.2, (vuSetCongestionLevel_fields _ _).2.2,
    (vuSetCurrentStatus_fields _ _).2.2, (vuSetCurrentStopSequence_fields _ _).2.2,
    (vuSetStopID_fields _ _).2.2, (vuSetPosition_fields _ _).2.2,
    (vuSetRouteFromTrip_fields _ _).2.2, (vuSetTrip_fields _ _).2.1,
    (vuSetLabel_fields _ _).2.2.1]

end CotaBus

namespace CotaBus

/-! ## Projection lemmas for the single-file vehicle builder -/

set_option maxHeartbeats 1000000 in
/-- `updateVehiclePositions` stamps every vehicle with the feed header's
publish timestamp. -/
theorem p3BuildVehicle_updatedAt (gtfs : P3GTFSData) (ts : Int) (vp : VehiclePosition) :
    (p3BuildVehicle gtfs ts vp).updatedAt = ts := by
  obtain ⟨trip, veh, pos, seq, sid, cstat, cong, occ⟩ := vp
  unfold p3BuildVehicle
  dsimp only
  repeat' split
  all_goals rfl

set_option maxHeartbeats 2000000 in
/-- The installed direction of `updateVehiclePositions` is the static
trip's direction whenever the trip resolves, and 0 (never the feed's
value) otherwise. -/
theorem p3BuildVehicle_directionID (gtfs : P3GTFSData) (ts : Int) (vp : VehiclePosition) :
    (p3BuildVehicle gtfs ts vp).directionID
      = match vp.trip with
        | some td =>
          (match mapLookup gtfs.trips (tdGetTripId td) with
           | some trip => trip.direction
           | none => 0)
        | none => 0 := by
  obtain ⟨trip, veh, pos, seq, sid, cstat, cong, occ⟩ := vp
  unfold p3BuildVehicle
  dsimp only
  cases trip with
  | none =>
    repeat' split
    all_goals rfl
  | some td =>
    cases hlk : mapLookup gtfs.trips (tdGetTripId td) with
    | none =>
      repeat' split
      all_goals simp_all
    | some t =>
      repeat' split
      all_goals simp_all

set_option maxHeartbeats 1000000 in
/-- The trip relationship installed by `updateVehiclePositions` is the
feed's trip ID when a trip descriptor is present. -/
theorem p3BuildVehicle_tripRel (gtfs : P3GTFSData) (ts : Int) (vp : VehiclePosition) :
    (p3BuildVehicle gtfs ts vp).tripRel = vp.trip.map tdGetTripId := by
  obtain ⟨trip, veh, pos, seq, sid, cstat, cong, occ⟩ := vp
  unfold p3BuildVehicle
  dsimp only
  cases trip with
  | none =>
    repeat' split
    all_goals simp_all
  | some td =>
    repeat' split
    all_goals simp_all

set_option maxHeartbeats 1000000 in
/-- The stop relationship installed by `updateVehiclePositions` is exactly
the extracted stop-relationship block's result. -/
theorem p3BuildVehicle_stopRel (gtfs : P3GTFSData) (ts : Int) (vp : VehiclePosition) :
    (p3BuildVehicle gtfs ts vp).stopRel = p3StopRelationship gtfs vp := by
  obtain ⟨trip, veh, pos, seq, sid, cstat, cong, occ⟩ := vp
  unfold p3BuildVehicle
  dsimp only
  repeat' split
  all_goals rfl

/-- The source's stop-relationship block computes exactly the claim's
stop-relationship rule (the bounds `0 < s` and `1 ≤ s` agree on `Int`). -/
theorem p3StopRelationship_eq_spec (gtfs : P3GTFSData) (vp : VehiclePosition) :
    p3StopRelationship gtfs vp = specStopRelationship gtfs vp := by
  unfold p3StopRelationship specStopRelationship
  dsimp only
  by_cases hsid : vpGetStopId vp ≠ ""
  · simp [hsid]
  · simp only [if_neg hsid]
    cases vp.trip with
    | none => rfl
    | some td =>
      cases vp.currentStopSequence with
      | none => rfl
      | some s =>
        cases hlk : mapLookup gtfs.tripStops (tdGetTripId td) with
        | none => simp [hlk]
        | some stopTimes =>
          simp only [hlk]
          by_cases hb : 0 < vpGetCurrentStopSequence vp
              ∧ vpGetCurrentStopSequence vp ≤ (stopTimes.length : Int)
          · have hb' : 1 ≤ vpGetCurrentStopSequence vp
                ∧ vpGetCurrentStopSequence vp ≤ (stopTimes.length : Int) := ⟨by omega, hb.2⟩
            rw [if_pos hb, if_pos hb']
          · have hb' : ¬(1 ≤ vpGetCurrentStopSequence vp
                ∧ vpGetCurrentStopSequence vp ≤ (stopTimes.length : Int)) := by omega
            rw [if_neg hb, if_neg hb']

end CotaBus

namespace CotaBus

/-! ## Projection lemmas for the prediction builders, and fold invariants -/

/-- The direction installed by `updateTripUpdates` for a prediction: the
static trip's direction when the trip resolves, else the feed's value. -/
theorem p3BuildPrediction_directionID (gtfs : P3GTFSData) (td : TripDescriptor)
    (stu : StopTimeUpdate) :
    (p3BuildPrediction gtfs td stu).directionID
      = match mapLookup gtfs.trips (tdGetTripId td) with
        | some trip => trip.direction
        | none => tdGetDirectionId td := by
  unfold p3BuildPrediction
  dsimp only

/-- The identity of a prediction built by `updateTripUpdates`. -/
theorem p3BuildPrediction_id (gtfs : P3GTFSData) (td : TripDescriptor)
    (stu : StopTimeUpdate) :
    (p3BuildPrediction gtfs td stu).id = tdGetTripId td ++ "-" ++ stu.stopId.getD "" := by
  unfold p3BuildPrediction
  dsimp only

/-- A prediction entry of `TripUpdater.processFeed` is well-formed: its map
key equals its ID and its ID is `tripID-stopID` of its own trip and stop
fields. -/
def tuPredOK (p : String × MPrediction) : Bool :=
  p.1 == p.2.id && p.2.id == p.2.tripID ++ "-" ++ p.2.stopID

set_option maxHeartbeats 1000000 in
/-- Field characterization of `TripUpdater.processFeed`'s prediction
builder. -/
theorem tuBuildPrediction_fields (tripID routeID : String) (td : TripDescriptor)
    (stopID : String) (stu : StopTimeUpdate) :
    (tuBuildPrediction tripID routeID td stopID stu).id = tripID ++ "-" ++ stopID
    ∧ (tuBuildPrediction tripID routeID td stopID stu).tripID = tripID
    ∧ (tuBuildPrediction tripID routeID td stopID stu).stopID = stopID
    ∧ (tuBuildPrediction tripID routeID td stopID stu).directionID
        = td.directionId.getD 0 := by
  unfold tuBuildPrediction
  dsimp only
  repeat' split
  all_goals simp_all

/-- A fold over feed entities in `VehicleUpdater.processFeed` preserves any
per-entry predicate satisfied by every built vehicle. -/
theorem vuFold_all (st : Store) (now : Int) (P : String × MVehicle → Bool)
    (hbuild : ∀ vid vp, P (vid, vuBuildVehicle st now vid vp) = true) :
    ∀ (entities : List FeedEntity) (acc : List (String × MVehicle) × Nat),
      acc.1.all P = true →
      ((entities.foldl (vuProcessEntity st now) acc).1).all P = true := by
  intro entities
  induction entities with
  | nil => intro acc h; simpa using h
  | cons e rest ih =>
    intro acc h
    rw [List.foldl_cons]
    refine ih _ ?_
    cases hv : e.vehicle with
    | none => simpa [vuProcessEntity, hv] using h
    | some vp =>
      cases hvd : vp.vehicle with
      | none => simpa [vuProcessEntity, hv, hvd] using h
      | some vd =>
        cases hid : vd.id with
        | none => simpa [vuProcessEntity, hv, hvd, hid] using h
        | some vid =>
          have hstep : vuProcessEntity st now acc e
              = (mapUpsert acc.1 vid (vuBuildVehicle st now vid vp), acc.2 + 1) := by
            simp [vuProcessEntity, hv, hvd, hid]
          rw [hstep]
          exact all_mapUpsert h (hbuild vid vp)

/-- A fold over feed entities in `updateVehiclePositions` preserves any
per-entry predicate satisfied by every built vehicle. -/
theorem p3VehFold_all (gtfs : P3GTFSData) (ts : Int) (P : String × P3Vehicle → Bool)
    (hbuild : ∀ vp, P ((p3BuildVehicle gtfs ts vp).id, p3BuildVehicle gtfs ts vp) = true) :
    ∀ (entities : List FeedEntity) (acc : List (String × P3Vehicle)),
      acc.all P = true →
      (entities.foldl (p3ProcessVehicleEntity gtfs ts) acc).all P = true := by
  intro entities
  induction entities with
  | nil => intro acc h; simpa using h
  | cons e rest ih =>
    intro acc h
    rw [List.foldl_cons]
    refine ih _ ?_
    cases hv : e.vehicle with
    | none => simpa [p3ProcessVehicleEntity, hv] using h
    | some vp =>
      by_cases hguard : vp.position = none ∨ vp.vehicle = none
      · simpa [p3ProcessVehicleEntity, hv, if_pos hguard] using h
      · have hstep : p3ProcessVehicleEntity gtfs ts acc e
            = mapUpsert acc ((p3BuildVehicle gtfs ts vp).id) (p3BuildVehicle gtfs ts vp) := by
          simp [p3ProcessVehicleEntity, hv, if_neg hguard]
        rw [hstep]
        exact all_mapUpsert h (hbuild vp)

/-- The key-map invariant of `TripUpdater.processFeed`: distinct keys, and
every entry keyed by its own `tripID-stopID` identifier. -/
def tuMapInv (m : List (String × MPrediction)) : Prop :=
  (m.map Prod.fst).Nodup ∧ m.all tuPredOK = true

theorem tuStusFold_inv (tripID routeID : String) (td : TripDescriptor) :
    ∀ (stus : List StopTimeUpdate) (acc : List (String × MPrediction) × Nat),
      tuMapInv acc.1 →
      tuMapInv ((stus.foldl (tuProcessStopTimeUpdate tripID routeID td) acc).1) := by
  intro stus
  induction stus with
  | nil => intro acc h; exact h
  | cons stu rest ih =>
    intro acc h
    rw [List.foldl_cons]
    refine ih _ ?_
    cases hsid : stu.stopId with
    | none =>
      have hstep : tuProcessStopTimeUpdate tripID routeID td acc stu = acc := by
        simp [tuProcessStopTimeUpdate, hsid]
      rw [hstep]; exact h
    | some stopID =>
      have hstep : tuProcessStopTimeUpdate tripID routeID td acc stu
          = (mapUpsert acc.1 (tuBuildPrediction tripID routeID td stopID stu).id
              (tuBuildPrediction tripID routeID td stopID stu), acc.2 + 1) := by
        simp [tuProcessStopTimeUpdate, hsid]
      rw [hstep]
      constructor
      · exact nodup_fst_mapUpsert h.1
      · refine all_mapUpsert h.2 ?_
        unfold tuPredOK
        obtain ⟨h1, h2, h3, _⟩ := tuBuildPrediction_fields tripID routeID td stopID stu
        simp [h1, h2, h3]

theorem tuEntityFold_inv (st : Store) :
    ∀ (entities : List FeedEntity) (acc : List (String × MPrediction) × Nat),
      tuMapInv acc.1 →
      tuMapInv ((entities.foldl (tuProcessEntity st) acc).1) := by
  intro entities
  induction entities with
  | nil => intro acc h; exact h
  | cons e rest ih =>
    intro acc h
    rw [List.foldl_cons]
    refine ih _ ?_
    cases htu : e.tripUpdate with
    | none => simpa [tuProcessEntity, htu] using h
    | some tu =>
      cases htd : tu.trip with
      | none => simpa [tuProcessEntity, htu, htd] using h
      | some td =>
        cases hti : td.tripId with
        | none => simpa [tuProcessEntity, htu, htd, hti] using h
        | some tripID =>
          have hstep : tuProcessEntity st acc e
              = tu.stopTimeUpdate.foldl
                  (tuProcessStopTimeUpdate tripID
                    (let routeID := match td.routeId with
                      | some routeId => routeId
                      | none => ""
                     if routeID = "" then
                       match storeGetTrip st tripID with
                       | some trip => trip.routeID
                       | none => routeID
                     else routeID) td) acc := by
            simp only [tuProcessEntity, htu, htd, hti]
          rw [hstep]
          exact tuStusFold_inv _ _ td tu.stopTimeUpdate acc h

end CotaBus

namespace CotaBus

/-! ## Claim C1: staleness filtering of predictions -/

/-- A trip-update feed carrying one stop-time update whose arrival (epoch 0)
is far older than the poll time used below. -/
def c1CxFeed : FeedMessage :=
  { header := { timestamp := some 50 }
    entity := [
      { vehicle := none
        tripUpdate := some {
          trip := some { tripId := some "T1", routeId := some "R1", directionId := some 0 }
          stopTimeUpdate := [
            { stopSequence := some 3, stopId := some "S1"
              arrival := some { time := some 0 }, departure := none
              scheduleRelationship := none } ] } } ] }

/-- C1 counterexample: the claim, as stated, fails on the package
implementation.  `TripUpdater.Update` at poll time 1000000 installs the
prediction `T1-S1` into the store although its comparison time (epoch 0,
arrival only) is older than "now minus one realtime poll interval". -/
theorem c1_counterexample :
    (mapLookup ((tripUpdaterUpdate storeNew (.ok c1CxFeed) 1000000).1).predictions
        "T1-S1").map (fun p => p.arrivalTime) = some (some 0)
    ∧ specComparisonTime (some 0) none = some 0
    ∧ ((0 : Int) < 1000000 - realtimeUpdateInterval) := by
  refine ⟨rfl, rfl, by decide⟩

/-- C1 (amended): the staleness filter lives only in the single-file
reconciler.  For `updateTripUpdates`, the installed by-stop and by-trip
prediction snapshots hold (as multisets) exactly the predictions whose
comparison time — the later of arrival and departure, the present one if
only one is present — is not older than now minus one realtime poll
interval, predictions without timestamps always included.  (The package
`TripUpdater` installs every prediction unfiltered: see the
counterexample.) -/
theorem c1_amended (gtfs : P3GTFSData) (now : Int) (feed : FeedMessage) :
    (mapVals (p3UpdateTripUpdatesCore gtfs now feed).1).Perm
        (specInstalledPredictions gtfs now feed)
    ∧ (mapVals (p3UpdateTripUpdatesCore gtfs now feed).2).Perm
        (specInstalledPredictions gtfs now feed) := by
  have h := p3entityFold_perm gtfs now feed.entity ([], [])
  constructor
  · simpa [p3UpdateTripUpdatesCore, specInstalledPredictions, mapVals] using h.1
  · simpa [p3UpdateTripUpdatesCore, specInstalledPredictions, mapVals] using h.2

/-! ## Claim C2: static-load failure semantics -/

/-- A previously loaded store holding one route, and a download whose
`routes.txt` fails to parse. -/
def c2CxStore : Store :=
  storeAddRoute storeNew { id := "R1", shortName := "1", longName := "Main" }

/-- C2 counterexample: the claim, as stated, fails on the package `Loader`.
`Loader.Load` clears the store before parsing, so a parse failure leaves
the previously installed snapshot destroyed rather than intact (and this
loader has no local-copy fallback at all). -/
theorem c2_counterexample :
    (loaderLoad c2CxStore (.ok [("routes.txt", .error "malformed csv")]) 99).2
        = .error "malformed csv"
    ∧ (loaderLoad c2CxStore (.ok [("routes.txt", .error "malformed csv")]) 99).1.routes = []
    ∧ c2CxStore.routes ≠ [] := by
  refine ⟨rfl, rfl, by decide⟩

/-- C2 (amended): the stated failure semantics hold for the single-file
loader.  `loadGTFS` leaves the previous snapshot exactly as it was on any
failing load; a successfully parsed fresh download is installed; when the
fresh download or its parse fails, the local copy (when present and
parseable) is parsed and installed; and the snapshot only ever changes to
the result of a complete successful parse of one of the two archives.
(The package `Loader` instead clears the store before parsing: see the
counterexample.) -/
theorem c2_amended :
    (∀ (s : P3Server) (dl : Except String (List ZipEntry))
        (localCopy : Option (List ZipEntry)) (e : String),
      (p3LoadGTFS s dl localCopy).2 = .error e → (p3LoadGTFS s dl localCopy).1 = s)
    ∧ (∀ (s : P3Server) (files : List ZipEntry) (g : P3GTFSData)
        (localCopy : Option (List ZipEntry)),
      p3ParseGTFS files = .ok g →
      p3LoadGTFS s (.ok files) localCopy = ({ s with gtfs := g }, .ok ()))
    ∧ (∀ (s : P3Server) (e : String) (localFiles : List ZipEntry) (g : P3GTFSData),
      p3ParseGTFS localFiles = .ok g →
      p3LoadGTFS s (.error e) (some localFiles) = ({ s with gtfs := g }, .ok ()))
    ∧ (∀ (s : P3Server) (files localFiles : List ZipEntry) (e : String) (g : P3GTFSData),
      p3ParseGTFS files = .error e → p3ParseGTFS localFiles = .ok g →
      p3LoadGTFS s (.ok files) (some localFiles) = ({ s with gtfs := g }, .ok ()))
    ∧ (∀ (s : P3Server) (dl : Except String (List ZipEntry))
        (localCopy : Option (List ZipEntry)),
      (p3LoadGTFS s dl localCopy).1.gtfs = s.gtfs
      ∨ ∃ files, p3ParseGTFS files = .ok ((p3LoadGTFS s dl localCopy).1.gtfs)
          ∧ (dl = .ok files ∨ localCopy = some files)) := by
  refine ⟨?_, ?_, ?_, ?_, ?_⟩
  · intro s dl localCopy e h
    unfold p3LoadGTFS p3DownloadAndParseGTFS p3ParseGTFSServer at h ⊢
    rcases dl with edl | files
    · rcases localCopy with _ | localFiles
      · rfl
      · dsimp only at h ⊢
        rcases hp : p3ParseGTFS localFiles with ep | g <;> simp [hp] at h ⊢
    · dsimp only at h ⊢
      rcases hp : p3ParseGTFS files with ep | g
      · rcases localCopy with _ | localFiles
        · simp [hp]
        · rcases hp2 : p3ParseGTFS localFiles with ep2 | g2 <;> simp [hp, hp2] at h ⊢
      · simp [hp] at h
  · intro s files g localCopy hp
    unfold p3LoadGTFS p3DownloadAndParseGTFS p3ParseGTFSServer
    simp [hp]
  · intro s e localFiles g hp
    unfold p3LoadGTFS p3DownloadAndParseGTFS p3ParseGTFSServer
    simp [hp]
  · intro s files localFiles e g hp hp2
    unfold p3LoadGTFS p3DownloadAndParseGTFS p3ParseGTFSServer
    simp [hp, hp2]
  · intro s dl localCopy
    unfold p3LoadGTFS p3DownloadAndParseGTFS p3ParseGTFSServer
    rcases dl with edl | files
    · rcases localCopy with _ | localFiles
      · exact Or.inl rfl
      · rcases hp : p3ParseGTFS localFiles with ep | g
        · simp [hp]
        · simp [hp]
    · rcases hp : p3ParseGTFS files with ep | g
      · rcases localCopy with _ | localFiles
        · simp [hp]
        · rcases hp2 : p3ParseGTFS localFiles with ep2 | g2
          · simp [hp, hp2]
          · simp only [hp, hp2]
            exact Or.inr ⟨localFiles, hp2, Or.inr rfl⟩
      · simp only [hp]
        exact Or.inr ⟨files, hp, Or.inl rfl⟩

/-- C2 witness: the amended-claim theorem applied at concrete inputs — an
empty archive parses to the empty snapshot and is installed; a failed
download with no local copy leaves the server untouched. -/
theorem c2_witness :
    p3LoadGTFS ({} : P3Server) (.ok []) none = ({ gtfs := {} }, .ok ())
    ∧ (p3LoadGTFS ({} : P3Server) (.error "connection refused") none).1 = {} :=
  ⟨c2_amended.2.1 {} [] {} none rfl,
   c2_amended.1 {} (.error "connection refused") none "no GTFS data available" rfl⟩

end CotaBus

namespace CotaBus

/-! ## Claim C3: authoritative trip direction -/

/-- Direction correctness of an installed single-file vehicle entry: when
its trip relationship resolves against the static trips, the stored
direction is the trip's. -/
def p3DirOK (gtfs : P3GTFSData) (p : String × P3Vehicle) : Bool :=
  match p.2.tripRel with
  | some tid =>
    match mapLookup gtfs.trips tid with
    | some trip => p.2.directionID == trip.direction
    | none => true
  | none => true

theorem p3BuildVehicle_dirOK (gtfs : P3GTFSData) (ts : Int) (vp : VehiclePosition) :
    p3DirOK gtfs ((p3BuildVehicle gtfs ts vp).id, p3BuildVehicle gtfs ts vp) = true := by
  unfold p3DirOK
  have h1 := p3BuildVehicle_tripRel gtfs ts vp
  have h2 := p3BuildVehicle_directionID gtfs ts vp
  cases htr : vp.trip with
  | none => simp [h1, htr]
  | some td =>
    rw [htr] at h1 h2
    dsimp only at h1 h2
    cases hlk : mapLookup gtfs.trips (tdGetTripId td) with
    | none => simp [h1, hlk]
    | some trip =>
      rw [hlk] at h2
      simp [h1, h2, hlk]

/-- A static store with trip `T1` in direction 0, and a feed that reports
the same trip with direction 1. -/
def c3CxStore : Store :=
  storeAddTrip storeNew { id := "T1", routeID := "R1", directionID := 0 }

def c3CxFeed : FeedMessage :=
  { header := { timestamp := some 50 }
    entity := [
      { tripUpdate := none
        vehicle := some {
          trip := some { tripId := some "T1", routeId := some "R1", directionId := some 1 }
          vehicle := some { id := some "V1", label := some "veh 1" }
          position := some { latitude := 10, longitude := 20, bearing := none, speed := none }
          currentStopSequence := some 3
          stopId := none
          currentStatus := none, congestionLevel := none, occupancyStatus := none } } ] }

/-- C3 counterexample: the claim, as stated, fails on the package
implementation.  `VehicleUpdater.processFeed` installs the feed's raw
direction (1) for vehicle `V1` although the resolvable static trip `T1`
carries direction 0. -/
theorem c3_counterexample :
    (mapLookup (vuProcessFeed c3CxStore 100 c3CxFeed).1 "V1").map
        (fun v => v.directionID) = some 1
    ∧ (storeGetTrip c3CxStore "T1").map (fun t => t.directionID) = some 0
    ∧ ((1 : Int) ≠ 0) := by
  refine ⟨rfl, rfl, by decide⟩

/-- C3 (amended): in the single-file reconcilers the *installed* records
carry the static trip's direction whenever the trip resolves (vehicles:
every entry of the installed map; predictions: the built record), the
vehicle record ignoring the feed's direction entirely.  The package
updaters instead install the feed's raw direction value, but both of the
package API renderers substitute the resolvable trip's direction at
response time. -/
theorem c3_amended :
    (∀ (gtfs : P3GTFSData) (feed : FeedMessage),
      (p3UpdateVehiclePositionsCore gtfs feed).all (p3DirOK gtfs) = true)
    ∧ (∀ (gtfs : P3GTFSData) (td : TripDescriptor) (stu : StopTimeUpdate),
      (p3BuildPrediction gtfs td stu).directionID
        = match mapLookup gtfs.trips (tdGetTripId td) with
          | some trip => trip.direction
          | none => tdGetDirectionId td)
    ∧ (∀ (st : Store) (now : Int) (vid : String) (vp : VehiclePosition),
      (vuBuildVehicle st now vid vp).directionID
        = match vp.trip with
          | some td => td.directionId.getD 0
          | none => 0)
    ∧ (∀ (tripID routeID : String) (td : TripDescriptor) (stopID : String)
        (stu : StopTimeUpdate),
      (tuBuildPrediction tripID routeID td stopID stu).directionID
        = td.directionId.getD 0)
    ∧ (∀ (st : Store) (v : MVehicle) (trip : MTrip),
      v.tripID ≠ "" → storeGetTrip st v.tripID = some trip →
      vehicleResourceDirectionID st v = trip.directionID)
    ∧ (∀ (st : Store) (p : MPrediction) (trip : MTrip),
      p.tripID ≠ "" → storeGetTrip st p.tripID = some trip →
      predictionResourceDirectionID st p = trip.directionID) := by
  refine ⟨?_, p3BuildPrediction_directionID, vuBuildVehicle_directionID,
    (fun tid rid td sid stu => (tuBuildPrediction_fields tid rid td sid stu).2.2.2),
    ?_, ?_⟩
  · intro gtfs feed
    exact p3VehFold_all gtfs (fhGetTimestamp feed.header) (p3DirOK gtfs)
      (fun vp => p3BuildVehicle_dirOK gtfs (fhGetTimestamp feed.header) vp)
      feed.entity [] (by simp)
  · intro st v trip hne hlk
    unfold vehicleResourceDirectionID
    rw [if_pos hne, hlk]
  · intro st p trip hne hlk
    unfold predictionResourceDirectionID
    rw [if_pos hne, hlk]

/-- A vehicle and a prediction whose stored direction (1) disagrees with
their resolvable trip's direction (0), for the C3 witness. -/
def c3WVehicle : MVehicle := { id := "V1", tripID := "T1", directionID := 1 }

def c3WPrediction : MPrediction :=
  { id := "T1-S1", tripID := "T1", stopID := "S1", directionID := 1 }

/-- C3 witness: the amended-claim theorem's render-substitution conjuncts
applied at a concrete store, vehicle and prediction. -/
theorem c3_witness :
    vehicleResourceDirectionID c3CxStore c3WVehicle = 0
    ∧ predictionResourceDirectionID c3CxStore c3WPrediction = 0 :=
  ⟨c3_amended.2.2.2.2.1 c3CxStore c3WVehicle
      { id := "T1", routeID := "R1", directionID := 0 } (by decide) rfl,
   c3_amended.2.2.2.2.2 c3CxStore c3WPrediction
      { id := "T1", routeID := "R1", directionID := 0 } (by decide) rfl⟩

end CotaBus

namespace CotaBus

/-! ## Claim C4: direction-destination derivation -/

/-- A store with one route and one trip carrying the spec's example
headsign, in direction 0. -/
def c4CxStore : Store :=
  let s := storeAddRoute storeNew { id := "R1" }
  storeAddTrip s
    { id := "T1", routeID := "R1"
      headsign := "10 EAST AND WEST BROAD TO WESTWOODS PARK AND RIDE"
      directionID := 0 }

/-- C4 counterexample: the claim, as stated, fails on the store's
`BuildRouteDirections`.  For the spec's example headsign the derived
`directionDestinations[0]` is `"WESTWOODS PARK AND RIDE"` — the substring
strictly *after* the `" TO "` token — not the claimed
`"TO WESTWOODS PARK AND RIDE"` (which this code puts into
`directionNames[0]` instead). -/
theorem c4_counterexample :
    (storeGetRoute (storeBuildRouteDirections c4CxStore) "R1").map
        (fun r => r.directionDestinations) = some ["WESTWOODS PARK AND RIDE", ""]
    ∧ ("WESTWOODS PARK AND RIDE" : String) ≠ "TO WESTWOODS PARK AND RIDE" := by
  refine ⟨rfl, by decide⟩

/-- A store exercising first-non-empty headsign selection: an empty
headsign first, then the example headsign, then a second non-empty one,
and a no-token headsign in direction 1. -/
def c4Store : Store :=
  let s := storeAddRoute storeNew { id := "R1" }
  let s := storeAddTrip s { id := "T0", routeID := "R1", headsign := "", directionID := 0 }
  let s := storeAddTrip s
    { id := "T1", routeID := "R1"
      headsign := "10 EAST AND WEST BROAD TO WESTWOODS PARK AND RIDE"
      directionID := 0 }
  let s := storeAddTrip s
    { id := "T2", routeID := "R1", headsign := "OTHER TO ELSEWHERE", directionID := 0 }
  storeAddTrip s { id := "T3", routeID := "R1", headsign := "DOWNTOWN SHUTTLE", directionID := 1 }

/-- Two single-file trips of one route and direction: a `" TO "` headsign
followed in iteration order by an empty one. -/
def c4P3Trips : List (String × P3Trip) :=
  [("T1", { id := "T1", routeID := "R1", headsign := "A TO B", direction := 0 }),
   ("T2", { id := "T2", routeID := "R1", headsign := "", direction := 0 })]

/-- C4 (amended): the single-file loader's `cleanCOTADestination` yields
`"TO WESTWOODS PARK AND RIDE"` for the example headsign and the headsign
verbatim without a `" TO "` token, but `parseGTFS` applies it to *every*
trip of the route in iteration order — empty headsigns included — so the
last trip wins (`c4P3Trips` ends with destination `""`).  The store's
`BuildRouteDirections` uses the first non-empty headsign per (route,
direction) and derives `directionDestinations[d]` as the substring
strictly after `" TO "` with `directionNames[d] = "TO " ++` it; without
the token both fall back to the headsign verbatim. -/
theorem c4_amended :
    cleanCOTADestination "10 EAST AND WEST BROAD TO WESTWOODS PARK AND RIDE"
      = "TO WESTWOODS PARK AND RIDE"
    ∧ cleanCOTADestination "DOWNTOWN SHUTTLE" = "DOWNTOWN SHUTTLE"
    ∧ afterTO "10 EAST AND WEST BROAD TO WESTWOODS PARK AND RIDE"
      = some "WESTWOODS PARK AND RIDE"
    ∧ (storeGetRoute (storeBuildRouteDirections c4Store) "R1").map
        (fun r => (r.directionNames, r.directionDestinations))
      = some (["TO WESTWOODS PARK AND RIDE", "DOWNTOWN SHUTTLE"],
              ["WESTWOODS PARK AND RIDE", "DOWNTOWN SHUTTLE"])
    ∧ p3DirectionDestinations "R1" c4P3Trips = .ok ["", ""] := by
  refine ⟨rfl, rfl, rfl, rfl, rfl⟩

/-! ## Claim C5: stop-relationship derivation -/

/-- An internal store holding trip `T1` with a four-stop ordered stop-time
list `S1..S4`. -/
def c5CxStore : Store :=
  let s := storeAddTrip storeNew { id := "T1", routeID := "R1", directionID := 0 }
  let s := storeAddStopTime s { tripID := "T1", stopID := "S1", stopSequence := 1 }
  let s := storeAddStopTime s { tripID := "T1", stopID := "S2", stopSequence := 2 }
  let s := storeAddStopTime s { tripID := "T1", stopID := "S3", stopSequence := 3 }
  storeAddStopTime s { tripID := "T1", stopID := "S4", stopSequence := 4 }

/-- C5 counterexample: the claim, as stated, fails on the package
implementation.  With no feed stop ID but `currentStopSequence = 3`
against trip `T1`'s known ordered list `[S1, S2, S3, S4]`, the installed
vehicle has no stop relationship (`StopID = ""`) instead of the claimed
`S3`. -/
theorem c5_counterexample :
    (mapLookup (vuProcessFeed c5CxStore 100 c3CxFeed).1 "V1").map
        (fun v => (v.stopID, v.currentStopSequence)) = some ("", 3)
    ∧ (storeGetStopTimesByTrip c5CxStore "T1").map (fun st => st.stopID)
      = ["S1", "S2", "S3", "S4"]
    ∧ ("" : String) ≠ "S3" := by
  refine ⟨rfl, rfl, by decide⟩

/-- A single-file snapshot with the same four-stop trip, and the
corresponding feed: used to exhibit the claimed `S3` derivation. -/
def c5Gtfs : P3GTFSData :=
  { trips := [("T1", { id := "T1", routeID := "R1", direction := 0 })]
    tripStops := [("T1", [
      { tripID := "T1", stopID := "S1", stopSequence := 1 },
      { tripID := "T1", stopID := "S2", stopSequence := 2 },
      { tripID := "T1", stopID := "S3", stopSequence := 3 },
      { tripID := "T1", stopID := "S4", stopSequence := 4 } ])] }

def c5Vp : VehiclePosition :=
  { trip := some { tripId := some "T1", routeId := some "R1", directionId := some 1 }
    vehicle := some { id := some "V1", label := none }
    position := some { latitude := 10, longitude := 20, bearing := none, speed := none }
    currentStopSequence := some 3
    stopId := none
    currentStatus := none, congestionLevel := none, occupancyStatus := none }

/-- C5 (amended): the claimed stop-relationship rule is exactly what the
single-file `updateVehiclePositions` installs (feed stop ID wins; else a
1-indexed in-bounds lookup by current stop sequence into the trip's
ordered stop-time list; else none) — `currentStopSequence = 3` against
`[S1, S2, S3, S4]` yields `S3`.  The package `VehicleUpdater` only ever
copies a feed-supplied stop ID and never derives one. -/
theorem c5_amended :
    (∀ (gtfs : P3GTFSData) (ts : Int) (vp : VehiclePosition),
      (p3BuildVehicle gtfs ts vp).stopRel = specStopRelationship gtfs vp)
    ∧ (p3BuildVehicle c5Gtfs 50 c5Vp).stopRel = some "S3"
    ∧ (∀ (st : Store) (now : Int) (vid : String) (vp : VehiclePosition),
      (vuBuildVehicle st now vid vp).stopID = vp.stopId.getD "") := by
  refine ⟨?_, ?_, vuBuildVehicle_stopID⟩
  · intro gtfs ts vp
    exact (p3BuildVehicle_stopRel gtfs ts vp).trans (p3StopRelationship_eq_spec gtfs vp)
  · rw [p3BuildVehicle_stopRel]
    rfl

/-! ## Claim C6: failed realtime polls -/

/-- A server with realtime data from an earlier poll at time 5. -/
def c6CxServer : P3Server :=
  { realtime := {
      vehicles := [("V1", { id := "V1", updatedAt := 4 })]
      predictions := [("S1", [{ id := "T1-S1" }])]
      tripPredictions := [("T1", [{ id := "T1-S1" }])]
      lastUpdate := 5 } }

/-- C6 counterexample: the claim, as stated, fails on the single-file
implementation.  When both realtime fetches fail, `updateRealtimeData`
leaves the vehicle and prediction maps untouched but still advances the
freshness timestamp `lastUpdate` to the poll time. -/
theorem c6_counterexample :
    (p3UpdateRealtimeData c6CxServer (.error "transport error")
        (.error "transport error") 100).realtime.vehicles
      = c6CxServer.realtime.vehicles
    ∧ (p3UpdateRealtimeData c6CxServer (.error "transport error")
        (.error "transport error") 100).realtime.predictions
      = c6CxServer.realtime.predictions
    ∧ (p3UpdateRealtimeData c6CxServer (.error "transport error")
        (.error "transport error") 100).realtime.lastUpdate
      ≠ c6CxServer.realtime.lastUpdate := by
  refine ⟨rfl, rfl, by decide⟩

/-- C6 (amended): a failed poll leaves the realtime data untouched in both
implementations, and in the package updaters the store — its
last-realtime-update timestamp included — is returned exactly as it was;
the single-file `updateRealtimeData`, however, stamps `lastUpdate` with
the poll time even when both fetches fail (data maps still untouched). -/
theorem c6_amended :
    (∀ (st : Store) (e : String) (now : Int),
      vehicleUpdaterUpdate st (.error e) now = (st, .error e))
    ∧ (∀ (st : Store) (e : String) (now : Int),
      tripUpdaterUpdate st (.error e) now = (st, .error e))
    ∧ (∀ (s : P3Server) (e₁ e₂ : String) (now : Int),
      p3UpdateRealtimeData s (.error e₁) (.error e₂) now
        = { s with realtime := { s.realtime with lastUpdate := now } }) :=
  ⟨fun _ _ _ => rfl, fun _ _ _ => rfl, fun _ _ _ _ => rfl⟩

end CotaBus

namespace CotaBus

/-! ## Claim C7: route→stop index consistency -/

/-- A store whose `stop_times.txt` row references stop `SX` even though no
`stops.txt` row defines it. -/
def c7CxStore : Store :=
  let s := storeAddRoute storeNew { id := "R1" }
  let s := storeAddTrip s { id := "T1", routeID := "R1" }
  storeAddStopTime s { tripID := "T1", stopID := "SX", stopSequence := 1 }

/-- C7 counterexample: the claim, as stated, is false.  After
`BuildStopsByRoute` on an archive whose stop-times reference the unknown
stop `SX`, the route→stop index contains `SX` although the stop map has
no such key — a dangling index entry. -/
theorem c7_counterexample :
    mapLookup (storeBuildStopsByRoute c7CxStore).stopsByRoute "R1" = some ["SX"]
    ∧ mapLookup (storeBuildStopsByRoute c7CxStore).stops "SX" = none := by
  refine ⟨rfl, rfl⟩

/-- C7 (amended): the route→stop index is derived from stop-times rows
with no membership check against the stop map, so it may carry dangling
stop IDs for arbitrary archives; but every stop actually returned by the
read accessor `GetStopsByRoute` is a value of the stop map (the accessor
filters out IDs that do not resolve), so dangling entries are never
observable through it. -/
theorem c7_amended (st : Store) (routeID : String) (stop : MStop)
    (hmem : stop ∈ storeGetStopsByRoute st routeID) :
    ∃ id, mapLookup st.stops id = some stop := by
  unfold storeGetStopsByRoute at hmem
  obtain ⟨id, _, hlk⟩ := List.mem_filterMap.mp hmem
  exact ⟨id, hlk⟩

/-- A store where `S1` exists and is indexed for route `R1`. -/
def c7WStore : Store :=
  let s := storeAddRoute storeNew { id := "R1" }
  let s := storeAddStop s { id := "S1", name := "Main St" }
  let s := storeAddTrip s { id := "T1", routeID := "R1" }
  storeAddStopTime s { tripID := "T1", stopID := "S1", stopSequence := 1 }

/-- C7 witness: the amended-claim theorem applied to a concrete store and
a concrete member of `GetStopsByRoute`. -/
theorem c7_witness :
    ∃ id, mapLookup (storeBuildStopsByRoute c7WStore).stops id
      = some { id := "S1", name := "Main St" } :=
  c7_amended (storeBuildStopsByRoute c7WStore) "R1"
    { id := "S1", name := "Main St" } (by decide)

/-! ## Claim C8: one prediction per (trip, stop) pair -/

/-- A trip-update feed carrying two stop-time updates for the same
(trip, stop) pair, both fresh. -/
def c8CxFeed : FeedMessage :=
  { header := { timestamp := some 50 }
    entity := [
      { vehicle := none
        tripUpdate := some {
          trip := some { tripId := some "T1", routeId := some "R1", directionId := some 0 }
          stopTimeUpdate := [
            { stopSequence := some 3, stopId := some "S1"
              arrival := some { time := some 1000000 }, departure := none
              scheduleRelationship := none },
            { stopSequence := some 4, stopId := some "S1"
              arrival := some { time := some 1000040 }, departure := none
              scheduleRelationship := none } ] } } ] }

/-- C8 counterexample: the claim, as stated, fails on the single-file
implementation.  When one message carries two stop-time updates for the
pair (T1, S1), `updateTripUpdates` appends both, and the installed
snapshot holds two predictions with the same ID `T1-S1`. -/
theorem c8_counterexample :
    (mapLookup ((p3UpdateTripUpdates {} (.ok c8CxFeed) 1000000).1).realtime.predictions
        "S1").map (fun l => l.map (fun p => p.id))
      = some ["T1-S1", "T1-S1"]
    ∧ (mapLookup ((p3UpdateTripUpdates {} (.ok c8CxFeed) 1000000).1).realtime.predictions
        "S1").map List.length ≠ some 1 := by
  refine ⟨rfl, by decide⟩

/-- C8 (amended): the at-most-one-per-(trip, stop) guarantee holds in the
package `TripUpdater`, whose map is keyed by `tripID-stopID` so a later
duplicate overwrites the earlier one: the installed map's keys are
pairwise distinct and every entry is keyed by its own ID, which is built
from its trip ID and stop ID.  (The single-file reconciler appends
instead and can install duplicates: see the counterexample.) -/
theorem c8_amended (st : Store) (feed : FeedMessage) :
    (((tuProcessFeed st feed).1.map Prod.fst).Nodup)
    ∧ ((tuProcessFeed st feed).1.all tuPredOK = true) := by
  have h : tuMapInv ((feed.entity.foldl (tuProcessEntity st) ([], 0)).1) :=
    tuEntityFold_inv st feed.entity ([], 0) ⟨by simp, by simp⟩
  exact ⟨h.1, h.2⟩

/-! ## Claim C9: vehicle `updatedAt` provenance -/

/-- A vehicle-position feed published at header time 50. -/
def c9CxFeed : FeedMessage :=
  { header := { timestamp := some 50 }
    entity := [
      { tripUpdate := none
        vehicle := some {
          trip := none
          vehicle := some { id := some "V1", label := none }
          position := some { latitude := 10, longitude := 20, bearing := none, speed := none }
          currentStopSequence := none
          stopId := none
          currentStatus := none, congestionLevel := none, occupancyStatus := none } } ] }

/-- C9 counterexample: the claim, as stated, fails on the package
implementation.  `VehicleUpdater.processFeed` stamps vehicle `V1` with
the wall-clock processing time (100), not the feed header's publish
timestamp (50). -/
theorem c9_counterexample :
    (mapLookup (vuProcessFeed storeNew 100 c9CxFeed).1 "V1").map
        (fun v => v.updatedAt) = some 100
    ∧ fhGetTimestamp c9CxFeed.header = 50
    ∧ ((100 : Int) ≠ 50) := by
  refine ⟨rfl, rfl, by decide⟩

/-- C9 (amended): the single-file `updateVehiclePositions` stamps every
installed vehicle with the feed header's publish timestamp; the package
`VehicleUpdater` instead stamps `time.Now()`, the wall clock at
processing time. -/
theorem c9_amended :
    (∀ (gtfs : P3GTFSData) (feed : FeedMessage),
      (p3UpdateVehiclePositionsCore gtfs feed).all
        (fun p => p.2.updatedAt == fhGetTimestamp feed.header) = true)
    ∧ (∀ (st : Store) (now : Int) (vid : String) (vp : VehiclePosition),
      (vuBuildVehicle st now vid vp).updatedAt = now) := by
  refine ⟨?_, vuBuildVehicle_updatedAt⟩
  intro gtfs feed
  refine p3VehFold_all gtfs (fhGetTimestamp feed.header)
    (fun p => p.2.updatedAt == fhGetTimestamp feed.header) ?_ feed.entity [] (by simp)
  intro vp
  simp [p3BuildVehicle_updatedAt]

/-! ## Claim C10: direction-array indexing during static post-processing -/

/-- A `trips.txt` row whose `direction_id` column holds `"2"`. -/
def c10TripRecord : CSVRecord :=
  [("trip_id", "T1"), ("route_id", "R1"), ("service_id", "SV"),
   ("trip_headsign", "A TO B"), ("direction_id", "2")]

/-- The archive containing that row together with its route. -/
def c10Files : List ZipEntry :=
  [("routes.txt", .ok [[("route_id", "R1"), ("route_short_name", "1"),
      ("route_long_name", "Main")]]),
   ("trips.txt", .ok [c10TripRecord])]

/-- An internal store loaded with the same out-of-range trip. -/
def c10Store : Store :=
  let s := storeAddRoute storeNew { id := "R1" }
  storeAddTrip s { id := "T1", routeID := "R1", headsign := "A TO B", directionID := 2 }

/-- C10: the claim names a real safety property that the single-file code
violates.  `parseTrips` parses `direction_id = "2"` to the integer 2, and
`parseGTFS`'s write `directionDestinations[trip.Direction]` then indexes
past the two-element slice — a runtime panic, modelled as the
`Except.error` below — so the whole parse dies instead of writing only
indices 0/1.  The store's `BuildRouteDirections`, by contrast, guards
the index and leaves the two-element arrays intact. -/
theorem c10_bug :
    p3ParseTripRow c10TripRecord
      = { id := "T1", routeID := "R1", serviceID := "SV", headsign := "A TO B",
          shapeID := "", direction := 2 }
    ∧ p3DirectionDestinations "R1" [("T1", p3ParseTripRow c10TripRecord)]
      = .error "runtime error: index out of range"
    ∧ p3ParseGTFS c10Files = .error "runtime error: index out of range"
    ∧ (storeGetRoute (storeBuildRouteDirections c10Store) "R1").map
        (fun r => (r.directionNames, r.directionDestinations))
      = some (["", ""], ["", ""]) := by
  refine ⟨rfl, rfl, rfl, rfl⟩

end CotaBus
